import Mathlib

/-!
Shallow embedding of the TLS termination certificate-supply subsystem of
rama (file rama-tls/src/boring/server/acceptor_data.rs), together with
models of the external collaborators it uses (boring X509/PKey parsing and
building, and the moka bounded expiring single-flight cache), which are
specified at the boundary by the natural-language specification.

Conventions of the embedding:
  * randomness (RSA key generation, 159-bit random serial numbers) is
    modelled by a generation-state oracle `GenState`: each factory call
    consumes one fresh counter value, which serves as both the key identity
    and the serial number, so distinct calls yield distinct serials;
  * fallibility of the cryptographic primitives (KeyGenError /
    CertBuildError) is modelled by a failure oracle inside `GenState`: the
    generation attempt numbered `n` fails exactly when `n` is in the
    oracle's failure set;
  * time is a `Nat` of seconds, passed explicitly where the code consults
    the clock;
  * byte strings handed to the DER/PEM parsers are modelled abstractly by
    what they parse to (a blob either parses to a certificate / key / stack
    or fails), since the parsers are external collaborators.
-/

/-- Model of `rama_net::address::Host` (not under src/): a host is either a
symbolic domain name or a numeric IP address.  Per the spec's collaborator
contract, it supports equality/hashing and the variant distinction used to
decide DNS-name vs IP SAN entry type. -/
inductive Host where
  | name (domain : String)
  | address (addr : String)
deriving DecidableEq

/-- Display of a `Host` (the code calls `common_name.to_string()`):
the domain string for a name, the address string for an address. -/
def Host.render : Host → String
  | .name domain => domain
  | .address addr => addr

/-- X509 name-entry identifiers actually used by the code
(`Nid::ORGANIZATIONNAME`, `Nid::COMMONNAME`, `Nid::SUBJECT_ALT_NAME`). -/
inductive Nid where
  | organizationName
  | commonName
  | subjectAltName
deriving DecidableEq

/-- An X509 distinguished name: the ordered list of (nid, value) entries
appended through `X509NameBuilder`. -/
structure X509Name where
  entries : List (Nid × String)
deriving DecidableEq

/-- One entry of the subject-alternative-name extension: either a DNS name
or an IP literal. -/
inductive SanEntry where
  | dns (s : String)
  | ip (s : String)
deriving DecidableEq

/-- Model of a built `boring::x509::X509` certificate, keeping the fields
the claims are about: subject and issuer names, serial number, the public
key it certifies, and the subject-alternative-name extension (`none` when
the builder appended no such extension). -/
structure X509 where
  subject_name : X509Name
  issuer_name : X509Name
  serial : Nat
  pubkey : Nat
  san_ext : Option (List SanEntry)
deriving DecidableEq

/-- Model of `boring::pkey::PKey<Private>`: a private key is identified by
the public component it determines (`pubkey`). -/
structure PKey where
  pubkey : Nat
deriving DecidableEq

/-- Generation-state oracle modelling the randomness and fallibility of the
cryptographic factory operations: `counter` numbers the generation attempts
(each attempt consumes one value, used as fresh key identity and serial);
an attempt fails exactly when its number is in `failSet` (modelling
KeyGenError / CertBuildError of the underlying crypto library). -/
structure GenState where
  counter : Nat
  failSet : List Nat
deriving DecidableEq

/-- Advance the generation oracle past one attempt. -/
def GenState.bump (g : GenState) : GenState :=
  { g with counter := g.counter + 1 }

/-- Whether the next generation attempt fails. -/
def GenState.fails (g : GenState) : Bool :=
  g.failSet.contains g.counter

/-- Model of `rama_net::tls::server::SelfSignedData` (not under src/ in the
version the acceptor uses; field shapes read off the acceptor's usage and
the spec §3): optional organisation name, optional common-name host,
optional extra subject-alternative names. -/
structure SelfSignedData where
  organisation_name : Option String
  common_name : Option Host
  subject_alternative_names : Option (List String)
deriving DecidableEq

/-- Embedding of `self_signed_server_auth_gen_cert`: generates a fresh
keypair (one oracle attempt), resolves the common name (default
`localhost`), builds the subject name (organisation entry, then any
supplied subject-alternative names as SUBJECT_ALT_NAME attributes of the
distinguished name, then the common-name entry), a fresh serial, issuer =
the CA certificate's subject, and a subject-alternative-name extension
holding exactly the one entry derived from the resolved common name (DNS
for a domain, IP for an address). -/
def self_signed_server_auth_gen_cert (data : SelfSignedData) (ca_cert : X509)
    (_ca_privkey : PKey) (g : GenState) :
    Except String (X509 × PKey) × GenState :=
  if g.fails then (.error "generate 4096 RSA key", g.bump) else
  let privkey : PKey := ⟨g.counter⟩
  let common_name := data.common_name.getD (Host.name "localhost")
  let x509_name : X509Name :=
    ⟨(Nid.organizationName, data.organisation_name.getD "Anonymous") ::
      ((data.subject_alternative_names.getD []).map
          (fun s => (Nid.subjectAltName, s)) ++
        [(Nid.commonName, common_name.render)])⟩
  let serial_number := g.counter
  let san : SanEntry :=
    match common_name with
    | .name domain => .dns domain
    | .address addr => .ip addr
  let cert : X509 :=
    { subject_name := x509_name
      issuer_name := ca_cert.subject_name
      serial := serial_number
      pubkey := privkey.pubkey
      san_ext := some [san] }
  (.ok (cert, privkey), g.bump)

/-- Embedding of `self_signed_server_auth_gen_ca`: generates a fresh
keypair, builds a self-issued certificate (issuer = subject), organisation
and common-name defaults as in the code, fresh serial, and no
subject-alternative-name extension (the CA builder appends none). -/
def self_signed_server_auth_gen_ca (data : SelfSignedData) (g : GenState) :
    Except String (X509 × PKey) × GenState :=
  if g.fails then (.error "generate 4096 RSA key", g.bump) else
  let privkey : PKey := ⟨g.counter⟩
  let common_name := data.common_name.getD (Host.name "localhost")
  let x509_name : X509Name :=
    ⟨(Nid.organizationName, data.organisation_name.getD "Anonymous") ::
      ((data.subject_alternative_names.getD []).map
          (fun s => (Nid.subjectAltName, s)) ++
        [(Nid.commonName, common_name.render)])⟩
  let cert : X509 :=
    { subject_name := x509_name
      issuer_name := x509_name
      serial := g.counter
      pubkey := privkey.pubkey
      san_ext := none }
  (.ok (cert, privkey), g.bump)

/-- Embedding of `self_signed_server_auth`: generate a CA, then a leaf
signed by it; the chain is `[leaf, ca]` and the key is the leaf's. -/
def self_signed_server_auth (data : SelfSignedData) (g : GenState) :
    Except String (List X509 × PKey) × GenState :=
  match self_signed_server_auth_gen_ca data g with
  | (.error e, g') => (.error e, g')
  | (.ok (ca_cert, ca_privkey), g') =>
    match self_signed_server_auth_gen_cert data ca_cert ca_privkey g' with
    | (.error e, g'') => (.error e, g'')
    | (.ok (cert, privkey), g'') => (.ok ([cert, ca_cert], privkey), g'')

/-- Embedding of `self_signed_server_ca` (an inline wrapper around
`self_signed_server_auth_gen_ca`). -/
def self_signed_server_ca (data : SelfSignedData) (g : GenState) :
    Except String (X509 × PKey) × GenState :=
  self_signed_server_auth_gen_ca data g

/-- An issued leaf certificate together with its private key
(struct `IssuedCert` of the source). -/
structure IssuedCert where
  cert : X509
  key : PKey
deriving DecidableEq

/-- Embedding of `issue_cert_for_ca`: builds the naming data for the leaf
(organisation name = first ORGANIZATIONNAME entry of the CA certificate's
subject, or "Anonymous" when absent; common name = the requested server
name; no extra subject-alternative names) and generates the leaf via
`self_signed_server_auth_gen_cert`. -/
def issue_cert_for_ca (server_name : Option Host) (ca_cert : X509)
    (ca_key : PKey) (g : GenState) : Except String IssuedCert × GenState :=
  let data : SelfSignedData :=
    { organisation_name := some
        (((ca_cert.subject_name.entries.find?
              (fun e => e.1 == Nid.organizationName)).map
            (fun e => e.2)).getD "Anonymous")
      common_name := server_name
      subject_alternative_names := none }
  match self_signed_server_auth_gen_cert data ca_cert ca_key g with
  | (.ok (cert, key), g') => (.ok ⟨cert, key⟩, g')
  | (.error e, g') => (.error e, g')

/-- Modelled from the spec: the bounded, time-expiring cache collaborator
(`moka::sync::Cache`, not part of this repository).  State: a fixed
time-to-live in seconds, a maximum entry count, and the list of entries
(key, value, insertion time), newest first. -/
structure Cache where
  ttl : Nat
  maxCapacity : Nat
  entries : List (Host × IssuedCert × Nat)
deriving DecidableEq

/-- Modelled from the spec: look up a live (non-expired) entry; an entry
inserted at time `t` is live at `now` exactly when `now < t + ttl`
("entries exceeding the TTL are treated as absent on next lookup"). -/
def Cache.lookupLive (c : Cache) (now : Nat) (k : Host) : Option IssuedCert :=
  (c.entries.find? (fun e => e.1 == k && decide (now < e.2.2 + c.ttl))).map
    (fun e => e.2.1)

/-- Modelled from the spec: insert a value for a key, dropping any previous
entry for that key and all expired entries, then evicting (oldest-first in
this model — victim selection is explicitly not a contract) so that the
number of entries never exceeds `maxCapacity`. -/
def Cache.insert (c : Cache) (now : Nat) (k : Host) (v : IssuedCert) : Cache :=
  let kept := c.entries.filter
    (fun e => !(e.1 == k) && decide (now < e.2.2 + c.ttl))
  { c with entries := ((k, v, now) :: kept).take c.maxCapacity }

/-- Modelled from the spec: sequential semantics of
`moka::sync::Cache::try_get_with` ("get, or if absent/expired run exactly
one fill function and share its result"): a live entry is returned without
running the fill; otherwise the fill runs once, a successful result is
inserted with a fresh expiry, and an error leaves the cache unchanged (no
negative caching).  The concurrent single-flight behaviour is modelled
separately as a labelled transition system (`FlightSys`). -/
def Cache.tryGetWith (c : Cache) (now : Nat) (k : Host)
    (fill : GenState → Except String IssuedCert × GenState) (g : GenState) :
    Except String IssuedCert × Cache × GenState :=
  match c.lookupLive now k with
  | some v => (.ok v, c, g)
  | none =>
    match fill g with
    | (.ok v, g') => (.ok v, c.insert now k v, g')
    | (.error e, g') => (.error e, c, g')

/-- Modelled from the spec: the handshake-engine material bundle
(`boring::ssl::SslAcceptorBuilder`) at the boundary used by the code:
set-leaf-certificate, append-chain-certificate, set-private-key, and the
mandatory check-private-key-matches-certificate operation. -/
structure SslAcceptorBuilder where
  cert : Option X509
  chain : List X509
  key : Option PKey
deriving DecidableEq

/-- Modelled from the spec: `set_certificate` sets the leaf certificate. -/
def SslAcceptorBuilder.set_certificate (b : SslAcceptorBuilder) (c : X509) :
    SslAcceptorBuilder :=
  { b with cert := some c }

/-- Modelled from the spec: `add_extra_chain_cert` appends one chain
certificate, in order. -/
def SslAcceptorBuilder.add_extra_chain_cert (b : SslAcceptorBuilder)
    (c : X509) : SslAcceptorBuilder :=
  { b with chain := b.chain ++ [c] }

/-- Modelled from the spec: `set_private_key` sets the private key. -/
def SslAcceptorBuilder.set_private_key (b : SslAcceptorBuilder) (k : PKey) :
    SslAcceptorBuilder :=
  { b with key := some k }

/-- Modelled from the spec: `check_private_key` succeeds exactly when a
leaf certificate and a private key are both set and the key's public
component matches the certificate's public key. -/
def SslAcceptorBuilder.check_private_key (b : SslAcceptorBuilder) : Bool :=
  match b.cert, b.key with
  | some c, some k => c.pubkey == k.pubkey
  | _, _ => false

/-- The two kinds of certificate source of the acceptor
(enum `TlsCertSourceKind` of the source). -/
inductive TlsCertSourceKind where
  | inMemory (private_key : PKey) (cert_chain : List X509)
  | inMemoryIssuer (cert_cache : Cache) (ca_key : PKey) (ca_cert : X509)
deriving DecidableEq

/-- Wrapper struct `TlsCertSource` of the source. -/
structure TlsCertSource where
  kind : TlsCertSourceKind
deriving DecidableEq

/-- The chain loop of the `InMemory` branch of `issue_certs`: the first
chain element becomes the leaf certificate (`set_certificate`), every
later element is appended as an extra chain certificate. -/
def add_cert_chain (builder : SslAcceptorBuilder) (cert_chain : List X509) :
    SslAcceptorBuilder :=
  match cert_chain with
  | [] => builder
  | leaf :: rest =>
    rest.foldl (fun b c => b.add_extra_chain_cert c)
      (builder.set_certificate leaf)

/-- Embedding of `add_issued_cert_to_cert_builder`: set the issued leaf as
the certificate, append the CA certificate to the chain, set the issued
private key, then run the mandatory private-key/certificate check. -/
def add_issued_cert_to_cert_builder (issued_cert : IssuedCert) (ca_cert : X509)
    (builder : SslAcceptorBuilder) : Except String SslAcceptorBuilder :=
  let b := ((builder.set_certificate issued_cert.cert).add_extra_chain_cert
      ca_cert).set_private_key issued_cert.key
  if b.check_private_key then .ok b
  else .error "build boring ssl acceptor: issued in-mem: check private key"

/-- Embedding of `TlsCertSource::issue_certs`.  The `InMemory` branch loads
the fixed chain and key into the builder and runs `check_private_key` (the
only fallible step of that branch in this model).  The `InMemoryIssuer`
branch with a server name resolves through the cache's
get-or-fill (`try_get_with`, fill = `issue_cert_for_ca`); without a server
name it generates a fresh leaf directly, bypassing the cache.  Returns the
result, the updated source (carrying the updated cache) and the updated
generation oracle. -/
def TlsCertSource.issue_certs (src : TlsCertSource)
    (builder : SslAcceptorBuilder) (server_name : Option Host) (now : Nat)
    (g : GenState) :
    Except String SslAcceptorBuilder × TlsCertSource × GenState :=
  match src.kind with
  | .inMemory private_key cert_chain =>
    let b := (add_cert_chain builder cert_chain).set_private_key private_key
    if b.check_private_key then (.ok b, src, g)
    else (.error "build boring ssl acceptor: check private key", src, g)
  | .inMemoryIssuer cert_cache ca_key ca_cert =>
    match server_name with
    | some host =>
      match cert_cache.tryGetWith now host
          (fun g' => issue_cert_for_ca server_name ca_cert ca_key g') g with
      | (.ok issued_cert, c', g') =>
        (add_issued_cert_to_cert_builder issued_cert ca_cert builder,
          ⟨.inMemoryIssuer c' ca_key ca_cert⟩, g')
      | (.error e, c', g') =>
        (.error ("fresh issue of cert + insert: " ++ e),
          ⟨.inMemoryIssuer c' ca_key ca_cert⟩, g')
    | none =>
      match issue_cert_for_ca none ca_cert ca_key g with
      | (.ok issued_cert, g') =>
        (add_issued_cert_to_cert_builder issued_cert ca_cert builder, src, g')
      | (.error e, g') => (.error e, src, g')

/-- Modelled from the spec: a byte string handed to the DER parsers,
abstracted by what it parses to — a DER blob either parses to a
certificate, to a private key, to both (irrelevant in practice), or to
neither (malformed input). -/
structure DerBlob where
  asCert : Option X509
  asKey : Option PKey
deriving DecidableEq

/-- Modelled from the spec: a PEM text blob, abstracted by what it parses
to — an ordered stack of certificates (possibly empty; `none` means
malformed), and optionally a private key. -/
structure PemBlob where
  certs : Option (List X509)
  key : Option PKey
deriving DecidableEq

/-- Model of `rama_net::tls::DataEncoding` (not under src/ in the version
the acceptor uses; spec §3 "EncodedBlob"): one DER document, an ordered
stack of DER documents, or one PEM text blob. -/
inductive DataEncoding where
  | der (raw : DerBlob)
  | derStack (raws : List DerBlob)
  | pem (raw : PemBlob)
deriving DecidableEq

/-- Modelled from the spec: `X509::from_der` (external boring parser). -/
def X509.from_der (raw : DerBlob) : Option X509 :=
  raw.asCert

/-- Modelled from the spec: `X509::stack_from_pem` (external boring
parser); a well-formed PEM blob containing zero certificates yields the
empty stack, not an error. -/
def X509.stack_from_pem (raw : PemBlob) : Option (List X509) :=
  raw.certs

/-- Modelled from the spec: `PKey::private_key_from_der` (external boring
parser). -/
def PKey.private_key_from_der (raw : DerBlob) : Option PKey :=
  raw.asKey

/-- Modelled from the spec: `PKey::private_key_from_pem` (external boring
parser). -/
def PKey.private_key_from_pem (raw : PemBlob) : Option PKey :=
  raw.key

/-- Model of `rama_net::tls::server::ClientVerifyMode` as the acceptor
consumes it (not under src/ in that version): `Auto`, `Disable`, or
`ClientAuth` carrying an encoded blob of acceptable client certificates. -/
inductive ClientVerifyMode where
  | auto
  | disable
  | clientAuth (blob : DataEncoding)
deriving DecidableEq

/-- Model of `rama_net::tls::server::ServerAuthData` as the acceptor
consumes it: encoded private key, encoded certificate chain, optional
OCSP response bytes. -/
structure ServerAuthData where
  private_key : DataEncoding
  cert_chain : DataEncoding
  ocsp : Option (List Nat)
deriving DecidableEq

/-- Model of `rama_net::tls::server::ServerCertIssuerKind` (not under
src/): the CA material for an issuing source is either freshly
self-signed or supplied statically. -/
inductive ServerCertIssuerKind where
  | selfSigned (data : SelfSignedData)
  | single (data : ServerAuthData)
deriving DecidableEq

/-- Model of the cert-issuer configuration data the acceptor reads
(`data.kind`, `data.max_cache_size`). -/
structure ServerCertIssuerData where
  kind : ServerCertIssuerKind
  max_cache_size : Nat
deriving DecidableEq

/-- Model of `rama_net::tls::server::ServerAuth` as the acceptor consumes
it: self-signed single material, static single material, or a cert
issuer. -/
inductive ServerAuth where
  | selfSigned (data : SelfSignedData)
  | single (data : ServerAuthData)
  | certIssuer (data : ServerCertIssuerData)
deriving DecidableEq

/-- Model of `rama_net::tls::server::ServerConfig` (ALPN protocols,
protocol versions and key-log intent are opaque to the claims and kept as
plain numbers / lists of numbers). -/
structure ServerConfig where
  server_auth : ServerAuth
  protocol_versions : Option (List Nat)
  application_layer_protocol_negotiation : Option (List Nat)
  client_verify_mode : ClientVerifyMode
  key_logger : Nat
deriving DecidableEq

/-- Struct `TlsConfig` of the source. -/
structure TlsConfig where
  cert_source : TlsCertSource
  alpn_protocols : Option (List Nat)
  keylog_intent : Nat
  protocol_versions : Option (List Nat)
  client_cert_chain : Option (List X509)
deriving DecidableEq

/-- Struct `TlsAcceptorData` of the source (the `Arc` is dropped: the
config is immutable after construction). -/
structure TlsAcceptorData where
  config : TlsConfig
deriving DecidableEq

/-- Embedding of the `client_verify_mode` translation at the top of
`TryFrom<ServerConfig> for TlsAcceptorData`: `Auto`/`Disable` yield no
client trust chain; `ClientAuth` decodes per encoding variant (one DER
document to a one-element list, a DER stack element-wise, a PEM blob to
its stack), failing with the parse-context error when a decode fails. -/
def decode_client_cert_chain (mode : ClientVerifyMode) :
    Except String (Option (List X509)) :=
  match mode with
  | .auto | .disable => .ok none
  | .clientAuth (.der raw) =>
    match X509.from_der raw with
    | some c => .ok (some [c])
    | none => .error "boring/TlsAcceptorData: parse x509 client cert from DER content"
  | .clientAuth (.derStack raws) =>
    match raws.mapM (fun b => X509.from_der b) with
    | some cs => .ok (some cs)
    | none => .error "boring/TlsAcceptorData: parse x509 client cert from DER content"
  | .clientAuth (.pem raw) =>
    match X509.stack_from_pem raw with
    | some cs => .ok (some cs)
    | none => .error "boring/TlsAcceptorData: parse x509 client cert from PEM content"

/-- Embedding of the server-certificate-chain decoding of the
`ServerAuth::Single` branch of the translation. -/
def decode_server_cert_chain (enc : DataEncoding) : Except String (List X509) :=
  match enc with
  | .der raw =>
    match X509.from_der raw with
    | some c => .ok [c]
    | none => .error "boring/TlsAcceptorData: parse x509 server cert from DER content"
  | .derStack raws =>
    match raws.mapM (fun b => X509.from_der b) with
    | some cs => .ok cs
    | none => .error "boring/TlsAcceptorData: parse x509 server cert from DER content"
  | .pem raw =>
    match X509.stack_from_pem raw with
    | some cs => .ok cs
    | none => .error "boring/TlsAcceptorData: parse x509 server cert chain from PEM content"

/-- Embedding of the server-private-key decoding of the
`ServerAuth::Single` branch: a DER stack uses only its first element
(erroring when the stack is empty). -/
def decode_private_key (enc : DataEncoding) : Except String PKey :=
  match enc with
  | .der raw =>
    match PKey.private_key_from_der raw with
    | some k => .ok k
    | none => .error "boring/TlsAcceptorData: parse private key from DER content"
  | .derStack raws =>
    match raws.head? with
    | none => .error "boring/TlsAcceptorData: get first private key raw data"
    | some raw =>
      match PKey.private_key_from_der raw with
      | some k => .ok k
      | none => .error "boring/TlsAcceptorData: parse private key from DER content"
  | .pem raw =>
    match PKey.private_key_from_pem raw with
    | some k => .ok k
    | none => .error "boring/TlsAcceptorData: parse private key from PEM content"

/-- Embedding of the certificate-chain decoding of the
`ServerCertIssuerKind::Single` branch (same logic as
`decode_server_cert_chain`, CA-flavoured error contexts). -/
def decode_ca_cert_chain (enc : DataEncoding) : Except String (List X509) :=
  match enc with
  | .der raw =>
    match X509.from_der raw with
    | some c => .ok [c]
    | none => .error "boring/TlsAcceptorData: CA: parse x509 server cert from DER content"
  | .derStack raws =>
    match raws.mapM (fun b => X509.from_der b) with
    | some cs => .ok cs
    | none => .error "boring/TlsAcceptorData: CA: parse x509 server cert from DER content"
  | .pem raw =>
    match X509.stack_from_pem raw with
    | some cs => .ok cs
    | none => .error "boring/TlsAcceptorData: CA: parse x509 server cert chain from PEM content"

/-- Embedding of the private-key decoding of the
`ServerCertIssuerKind::Single` branch. -/
def decode_ca_private_key (enc : DataEncoding) : Except String PKey :=
  match enc with
  | .der raw =>
    match PKey.private_key_from_der raw with
    | some k => .ok k
    | none => .error "boring/TlsAcceptorData: CA: parse private key from DER content"
  | .derStack raws =>
    match raws.head? with
    | none => .error "boring/TlsAcceptorData: CA: get first private key raw data"
    | some raw =>
      match PKey.private_key_from_der raw with
      | some k => .ok k
      | none => .error "boring/TlsAcceptorData: CA: parse private key from DER content"
  | .pem raw =>
    match PKey.private_key_from_pem raw with
    | some k => .ok k
    | none => .error "boring/TlsAcceptorData: CA: parse private key from PEM content"

/-- Embedding of `TryFrom<ServerConfig> for TlsAcceptorData`: translates
the client-verify mode first (as the code does), then builds the
certificate source: `SelfSigned` generates a CA plus leaf
(`self_signed_server_auth`), `Single` decodes static material,
`CertIssuer` builds a cache with TTL 89 days and capacity
`max_cache_size` (8096 when that is 0) and obtains the CA material either
by self-signing or by decoding, in the static case popping the last
element of the decoded chain as the CA certificate (erroring when the
chain is empty) and discarding the rest.  No private-key/certificate
consistency check is performed anywhere in this translation. -/
def tryFrom (value : ServerConfig) (g : GenState) :
    Except String TlsAcceptorData × GenState :=
  match decode_client_cert_chain value.client_verify_mode with
  | .error e => (.error e, g)
  | .ok client_cert_chain =>
    let res : Except String TlsCertSourceKind × GenState :=
      match value.server_auth with
      | .selfSigned data =>
        match self_signed_server_auth data g with
        | (.ok (cert_chain, private_key), g') =>
          (.ok (.inMemory private_key cert_chain), g')
        | (.error e, g') => (.error ("boring/TlsAcceptorData: " ++ e), g')
      | .single data =>
        match decode_server_cert_chain data.cert_chain with
        | .error e => (.error e, g)
        | .ok cert_chain =>
          match decode_private_key data.private_key with
          | .error e => (.error e, g)
          | .ok private_key => (.ok (.inMemory private_key cert_chain), g)
      | .certIssuer data =>
        let cert_cache : Cache :=
          { ttl := 60 * 60 * 24 * 89
            maxCapacity := if data.max_cache_size = 0 then 8096
              else data.max_cache_size
            entries := [] }
        match data.kind with
        | .selfSigned data' =>
          match self_signed_server_ca data' g with
          | (.ok (ca_cert, ca_key), g') =>
            (.ok (.inMemoryIssuer cert_cache ca_key ca_cert), g')
          | (.error e, g') =>
            (.error ("boring/TlsAcceptorData: CA: self-signed ca: " ++ e), g')
        | .single data' =>
          match decode_ca_cert_chain data'.cert_chain with
          | .error e => (.error e, g)
          | .ok cert_chain =>
            match cert_chain.getLast? with
            | none => (.error "pop CA Cert (last) from stack", g)
            | some ca_cert =>
              match decode_ca_private_key data'.private_key with
              | .error e => (.error e, g)
              | .ok ca_key => (.ok (.inMemoryIssuer cert_cache ca_key ca_cert), g)
    match res with
    | (.error e, g') => (.error e, g')
    | (.ok kind, g') =>
      (.ok ⟨{ cert_source := ⟨kind⟩
              alpn_protocols := value.application_layer_protocol_negotiation
              keylog_intent := value.key_logger
              protocol_versions := value.protocol_versions
              client_cert_chain := client_cert_chain }⟩, g')

/-- Modelled from the spec: the state of one cache entry during a
single-flight episode ("absent → pending (one in-flight generation) →
present"): `pending i` records that caller `i` owns the in-flight
generation; `ready v` is a present value. -/
inductive FlightEntry where
  | absent
  | pending (owner : Nat)
  | ready (v : IssuedCert)
deriving DecidableEq

/-- Decidable equality of outcomes (`Except` carries no derived
instance). -/
instance {ε α : Type} [DecidableEq ε] [DecidableEq α] :
    DecidableEq (Except ε α) := fun a b =>
  match a, b with
  | .ok x, .ok y =>
    if h : x = y then .isTrue (by rw [h])
    else .isFalse (by intro hc; cases hc; exact h rfl)
  | .error x, .error y =>
    if h : x = y then .isTrue (by rw [h])
    else .isFalse (by intro hc; cases hc; exact h rfl)
  | .ok _, .error _ => .isFalse (by intro hc; cases hc)
  | .error _, .ok _ => .isFalse (by intro hc; cases hc)

/-- Modelled from the spec: the local state of one concurrent caller of
`try_get_with` for a fixed hostname key: not yet looked up, running the
fill itself, awaiting the in-flight fill, or finished with an outcome. -/
inductive CallerSt where
  | start
  | generating
  | waiting
  | done (o : Except String IssuedCert)
deriving DecidableEq

/-- Modelled from the spec: global state of a single-flight episode for one
hostname key — the entry state, the list of caller states (index =
caller), and the number of leaf-generation operations started so far. -/
structure FlightSys where
  entry : FlightEntry
  callers : List CallerSt
  genStarts : Nat
deriving DecidableEq

/-- Actions of the single-flight transition system: caller `i` performs its
(atomic) lookup / transition-to-pending, or the in-flight generation
resolves. -/
inductive FlightAct where
  | lookup (i : Nat)
  | resolve
deriving DecidableEq

/-- Modelled from the spec: one step of the single-flight system, with
`outcome` the result the single in-flight generation produces.  A lookup by
a not-yet-started caller atomically claims an absent entry (starting the
one generation), joins a pending entry as a waiter, or completes
immediately on a ready entry.  `resolve` completes the in-flight
generation: the owner and every waiter receive `outcome`; a success is
stored (entry becomes ready), a failure is not stored (entry returns to
absent — no negative caching).  All other actions do not change the
state. -/
def FlightSys.step (outcome : Except String IssuedCert) (s : FlightSys)
    (a : FlightAct) : FlightSys :=
  match a with
  | .lookup i =>
    match s.callers[i]? with
    | some .start =>
      match s.entry with
      | .absent =>
        { entry := .pending i
          callers := s.callers.set i .generating
          genStarts := s.genStarts + 1 }
      | .pending _ => { s with callers := s.callers.set i .waiting }
      | .ready v => { s with callers := s.callers.set i (.done (.ok v)) }
    | _ => s
  | .resolve =>
    match s.entry with
    | .pending _ =>
      { entry := match outcome with
          | .ok v => .ready v
          | .error _ => .absent
        callers := s.callers.map (fun c =>
          match c with
          | .generating => .done outcome
          | .waiting => .done outcome
          | c' => c')
        genStarts := s.genStarts }
    | _ => s

/-- Run a list of actions from a state. -/
def FlightSys.run (outcome : Except String IssuedCert) (s : FlightSys)
    (tr : List FlightAct) : FlightSys :=
  tr.foldl (fun s' a => FlightSys.step outcome s' a) s

/-- Initial state of a single-flight episode with `n` concurrent callers
and no live entry for the hostname. -/
def FlightSys.init (n : Nat) : FlightSys :=
  { entry := .absent
    callers := List.replicate n .start
    genStarts := 0 }

/-! ## Claim theorems -/

/-- Claim C8: every leaf certificate generated by the factory carries a
subject-alternative-name extension set from the resolved common name — a
DNS-name entry when the resolved common name is a symbolic domain name,
an IP-literal entry when it is a numeric address. -/
theorem gen_cert_san_from_resolved_common_name
    (data : SelfSignedData) (ca_cert : X509) (ca_key : PKey)
    (g g' : GenState) (cert : X509) (key : PKey)
    (h : self_signed_server_auth_gen_cert data ca_cert ca_key g =
      (.ok (cert, key), g')) :
    cert.san_ext = some
      [match data.common_name.getD (Host.name "localhost") with
       | .name domain => SanEntry.dns domain
       | .address addr => SanEntry.ip addr] := by
  unfold self_signed_server_auth_gen_cert at h
  cases hf : g.fails with
  | true => rw [hf] at h; simp at h
  | false =>
    rw [hf] at h
    simp only [Bool.false_eq_true, if_false, Prod.mk.injEq, Except.ok.injEq] at h
    obtain ⟨⟨hc, -⟩, -⟩ := h
    subst hc
    rfl

/-- Witness for C8 at a concrete input. -/
theorem gen_cert_san_from_resolved_common_name_witness :
    self_signed_server_auth_gen_cert
        ⟨some "Acme", some (Host.name "example.com"), none⟩
        ⟨⟨[(Nid.organizationName, "CAOrg")]⟩, ⟨[]⟩, 7, 42, none⟩ ⟨42⟩
        ⟨0, []⟩ =
      (.ok (⟨⟨[(Nid.organizationName, "Acme"),
                (Nid.commonName, "example.com")]⟩,
              ⟨[(Nid.organizationName, "CAOrg")]⟩, 0, 0,
              some [SanEntry.dns "example.com"]⟩, ⟨0⟩), ⟨1, []⟩) ∧
    (⟨⟨[(Nid.organizationName, "Acme"), (Nid.commonName, "example.com")]⟩,
        ⟨[(Nid.organizationName, "CAOrg")]⟩, 0, 0,
        some [SanEntry.dns "example.com"]⟩ : X509).san_ext =
      some [SanEntry.dns "example.com"] :=
  ⟨by decide,
    gen_cert_san_from_resolved_common_name
      ⟨some "Acme", some (Host.name "example.com"), none⟩
      ⟨⟨[(Nid.organizationName, "CAOrg")]⟩, ⟨[]⟩, 7, 42, none⟩ ⟨42⟩
      ⟨0, []⟩ ⟨1, []⟩
      ⟨⟨[(Nid.organizationName, "Acme"), (Nid.commonName, "example.com")]⟩,
        ⟨[(Nid.organizationName, "CAOrg")]⟩, 0, 0,
        some [SanEntry.dns "example.com"]⟩ ⟨0⟩ (by decide)⟩

/-- Claim C10: a certificate generated from `SelfSignedData` has a
subject-alternative-name extension with exactly one entry (derived from
the resolved common name) even when the data supplies a
`subject_alternative_names` list; the supplied names are instead appended
as SUBJECT_ALT_NAME attributes of the subject distinguished name, between
the organisation-name entry and the common-name entry. -/
theorem gen_cert_supplied_sans_go_to_subject_name
    (data : SelfSignedData) (sans : List String) (ca_cert : X509)
    (ca_key : PKey) (g g' : GenState) (cert : X509) (key : PKey)
    (hsans : data.subject_alternative_names = some sans)
    (h : self_signed_server_auth_gen_cert data ca_cert ca_key g =
      (.ok (cert, key), g')) :
    cert.san_ext = some
      [match data.common_name.getD (Host.name "localhost") with
       | .name domain => SanEntry.dns domain
       | .address addr => SanEntry.ip addr] ∧
    (cert.san_ext.getD []).length = 1 ∧
    cert.subject_name.entries =
      (Nid.organizationName, data.organisation_name.getD "Anonymous") ::
        (sans.map (fun s => (Nid.subjectAltName, s)) ++
          [(Nid.commonName,
            (data.common_name.getD (Host.name "localhost")).render)]) := by
  unfold self_signed_server_auth_gen_cert at h
  cases hf : g.fails with
  | true => rw [hf] at h; simp at h
  | false =>
    rw [hf] at h
    simp only [Bool.false_eq_true, if_false, Prod.mk.injEq, Except.ok.injEq] at h
    obtain ⟨⟨hc, -⟩, -⟩ := h
    subst hc
    refine ⟨rfl, ?_, ?_⟩
    · rfl
    · simp [hsans]

/-- Witness for C10 at a concrete input (one supplied extra SAN). -/
theorem gen_cert_supplied_sans_go_to_subject_name_witness :
    (⟨some "Acme", some (Host.name "a.test"),
        some ["b.test"]⟩ : SelfSignedData).subject_alternative_names =
      some ["b.test"] ∧
    self_signed_server_auth_gen_cert
        ⟨some "Acme", some (Host.name "a.test"), some ["b.test"]⟩
        ⟨⟨[]⟩, ⟨[]⟩, 7, 42, none⟩ ⟨42⟩ ⟨5, []⟩ =
      (.ok (⟨⟨[(Nid.organizationName, "Acme"),
                (Nid.subjectAltName, "b.test"),
                (Nid.commonName, "a.test")]⟩, ⟨[]⟩, 5, 5,
              some [SanEntry.dns "a.test"]⟩, ⟨5⟩), ⟨6, []⟩) ∧
    (⟨⟨[(Nid.organizationName, "Acme"), (Nid.subjectAltName, "b.test"),
         (Nid.commonName, "a.test")]⟩, ⟨[]⟩, 5, 5,
        some [SanEntry.dns "a.test"]⟩ : X509).san_ext =
      some [SanEntry.dns "a.test"] ∧
    ((⟨⟨[(Nid.organizationName, "Acme"), (Nid.subjectAltName, "b.test"),
          (Nid.commonName, "a.test")]⟩, ⟨[]⟩, 5, 5,
        some [SanEntry.dns "a.test"]⟩ : X509).san_ext.getD []).length = 1 ∧
    (⟨⟨[(Nid.organizationName, "Acme"), (Nid.subjectAltName, "b.test"),
         (Nid.commonName, "a.test")]⟩, ⟨[]⟩, 5, 5,
        some [SanEntry.dns "a.test"]⟩ : X509).subject_name.entries =
      (Nid.organizationName, "Acme") ::
        (["b.test"].map (fun s => (Nid.subjectAltName, s)) ++
          [(Nid.commonName, "a.test")]) := by
  refine ⟨by decide, by decide, ?_⟩
  have h := gen_cert_supplied_sans_go_to_subject_name
    ⟨some "Acme", some (Host.name "a.test"), some ["b.test"]⟩ ["b.test"]
    ⟨⟨[]⟩, ⟨[]⟩, 7, 42, none⟩ ⟨42⟩ ⟨5, []⟩ ⟨6, []⟩
    ⟨⟨[(Nid.organizationName, "Acme"), (Nid.subjectAltName, "b.test"),
        (Nid.commonName, "a.test")]⟩, ⟨[]⟩, 5, 5,
      some [SanEntry.dns "a.test"]⟩ ⟨5⟩ (by decide) (by decide)
  exact h

/-- Claim C6: translating `CertIssuer(StaticCA(data))` decodes the chain
per its encoding variant (`decode_ca_cert_chain`), uses the last element
of the decoded chain as the CA certificate (discarding the rest), and
fails when the decoded chain is empty. -/
theorem cert_issuer_static_ca_pops_last :
    (∀ (data' : ServerAuthData) (mcs : Nat) (pv alpn : Option (List Nat))
        (kl : Nat) (mode : ClientVerifyMode) (cc : Option (List X509))
        (g : GenState),
        decode_client_cert_chain mode = .ok cc →
        decode_ca_cert_chain data'.cert_chain = .ok [] →
        (tryFrom { server_auth := .certIssuer ⟨.single data', mcs⟩
                   protocol_versions := pv
                   application_layer_protocol_negotiation := alpn
                   client_verify_mode := mode
                   key_logger := kl } g).1 =
          .error "pop CA Cert (last) from stack") ∧
    (∀ (data' : ServerAuthData) (mcs : Nat) (pv alpn : Option (List Nat))
        (kl : Nat) (mode : ClientVerifyMode) (cc : Option (List X509))
        (chain : List X509) (ca_cert : X509) (ca_key : PKey) (g : GenState),
        decode_client_cert_chain mode = .ok cc →
        decode_ca_cert_chain data'.cert_chain = .ok chain →
        chain.getLast? = some ca_cert →
        decode_ca_private_key data'.private_key = .ok ca_key →
        (tryFrom { server_auth := .certIssuer ⟨.single data', mcs⟩
                   protocol_versions := pv
                   application_layer_protocol_negotiation := alpn
                   client_verify_mode := mode
                   key_logger := kl } g).1 =
          .ok ⟨{ cert_source := ⟨.inMemoryIssuer
                    ⟨60 * 60 * 24 * 89,
                      if mcs = 0 then 8096 else mcs, []⟩ ca_key ca_cert⟩
                 alpn_protocols := alpn
                 keylog_intent := kl
                 protocol_versions := pv
                 client_cert_chain := cc }⟩) := by
  constructor
  · intro data' mcs pv alpn kl mode cc g hmode hchain
    unfold tryFrom
    simp [hmode, hchain]
  · intro data' mcs pv alpn kl mode cc chain ca_cert ca_key g hmode hchain
      hlast hkey
    unfold tryFrom
    simp [hmode, hchain, hlast, hkey]

/-- Witness for C6 at concrete inputs: part one on a DER stack decoding to
the empty chain, part two on a singleton chain whose sole element becomes
the CA certificate. -/
theorem cert_issuer_static_ca_pops_last_witness :
    (decode_client_cert_chain .auto = .ok none ∧
      decode_ca_cert_chain (ServerAuthData.cert_chain
          ⟨.der ⟨none, some ⟨1⟩⟩, .derStack [], none⟩) = .ok [] ∧
      (tryFrom { server_auth := .certIssuer
                   ⟨.single ⟨.der ⟨none, some ⟨1⟩⟩, .derStack [], none⟩, 0⟩
                 protocol_versions := none
                 application_layer_protocol_negotiation := none
                 client_verify_mode := .auto
                 key_logger := 0 } ⟨0, []⟩).1 =
        .error "pop CA Cert (last) from stack") ∧
    (decode_ca_cert_chain (ServerAuthData.cert_chain
          ⟨.der ⟨none, some ⟨1⟩⟩,
            .der ⟨some ⟨⟨[]⟩, ⟨[]⟩, 3, 4, none⟩, none⟩, none⟩) =
        .ok [⟨⟨[]⟩, ⟨[]⟩, 3, 4, none⟩] ∧
      [(⟨⟨[]⟩, ⟨[]⟩, 3, 4, none⟩ : X509)].getLast? =
        some ⟨⟨[]⟩, ⟨[]⟩, 3, 4, none⟩ ∧
      (tryFrom { server_auth := .certIssuer
                   ⟨.single ⟨.der ⟨none, some ⟨1⟩⟩,
                      .der ⟨some ⟨⟨[]⟩, ⟨[]⟩, 3, 4, none⟩, none⟩, none⟩, 5⟩
                 protocol_versions := none
                 application_layer_protocol_negotiation := none
                 client_verify_mode := .auto
                 key_logger := 0 } ⟨0, []⟩).1 =
        .ok ⟨{ cert_source := ⟨.inMemoryIssuer
                  ⟨60 * 60 * 24 * 89, if (5 : Nat) = 0 then 8096 else 5, []⟩
                  ⟨1⟩ ⟨⟨[]⟩, ⟨[]⟩, 3, 4, none⟩⟩
               alpn_protocols := none
               keylog_intent := 0
               protocol_versions := none
               client_cert_chain := none }⟩) :=
  ⟨⟨by decide, by decide,
      cert_issuer_static_ca_pops_last.1
        ⟨.der ⟨none, some ⟨1⟩⟩, .derStack [], none⟩ 0 none none 0 .auto none
        ⟨0, []⟩ (by decide) (by decide)⟩,
    ⟨by decide, by decide,
      cert_issuer_static_ca_pops_last.2
        ⟨.der ⟨none, some ⟨1⟩⟩,
          .der ⟨some ⟨⟨[]⟩, ⟨[]⟩, 3, 4, none⟩, none⟩, none⟩ 5 none none 0
        .auto none [⟨⟨[]⟩, ⟨[]⟩, 3, 4, none⟩] ⟨⟨[]⟩, ⟨[]⟩, 3, 4, none⟩ ⟨1⟩
        ⟨0, []⟩ (by decide) (by decide) (by decide) (by decide)⟩⟩

/-- Counterexample to claim C7 as stated: `ClientAuth` with an empty DER
stack decodes to an empty list of trusted client certificates and
translation succeeds — an empty decode result is not an error. -/
theorem client_auth_empty_decode_not_an_error :
    decode_client_cert_chain (.clientAuth (.derStack [])) = .ok (some []) ∧
    ((tryFrom { server_auth := .selfSigned ⟨none, none, none⟩
                protocol_versions := none
                application_layer_protocol_negotiation := none
                client_verify_mode := .clientAuth (.derStack [])
                key_logger := 0 } ⟨0, []⟩).1.map
        (fun d => d.config.client_cert_chain)) = .ok (some []) := by
  constructor
  · decide
  · decide

/-- Claim C7 (amended): translation maps `Auto`/`Disable` to no client
trust chain and `ClientAuth(blob)` to the ordered list of trusted client
certificates decoded per the blob's encoding variant (a decode failure is
an error); a decode yielding an empty list is accepted as an empty trust
list, not rejected.  The last conjunct ties the decoding to `tryFrom`:
every successful translation stores exactly the decoded chain. -/
theorem client_verify_mode_translation :
    (decode_client_cert_chain .auto = .ok none) ∧
    (decode_client_cert_chain .disable = .ok none) ∧
    (∀ (raw : DerBlob) (c : X509), X509.from_der raw = some c →
        decode_client_cert_chain (.clientAuth (.der raw)) = .ok (some [c])) ∧
    (∀ (raws : List DerBlob) (cs : List X509),
        raws.mapM (fun b => X509.from_der b) = some cs →
        decode_client_cert_chain (.clientAuth (.derStack raws)) =
          .ok (some cs)) ∧
    (∀ (raw : PemBlob) (cs : List X509), X509.stack_from_pem raw = some cs →
        decode_client_cert_chain (.clientAuth (.pem raw)) = .ok (some cs)) ∧
    (∀ (raw : DerBlob), X509.from_der raw = none →
        decode_client_cert_chain (.clientAuth (.der raw)) =
          .error "boring/TlsAcceptorData: parse x509 client cert from DER content") ∧
    (decode_client_cert_chain (.clientAuth (.derStack [])) = .ok (some [])) ∧
    (∀ (value : ServerConfig) (g g' : GenState) (d : TlsAcceptorData),
        tryFrom value g = (.ok d, g') →
        decode_client_cert_chain value.client_verify_mode =
          .ok d.config.client_cert_chain) := by
  refine ⟨rfl, rfl, ?_, ?_, ?_, ?_, rfl, ?_⟩
  · intro raw c h
    simp [decode_client_cert_chain, h]
  · intro raws cs h
    simp only [decode_client_cert_chain]
    rw [h]
  · intro raw cs h
    simp [decode_client_cert_chain, h]
  · intro raw h
    simp [decode_client_cert_chain, h]
  · intro value g g' d h
    unfold tryFrom at h
    cases hm : decode_client_cert_chain value.client_verify_mode with
    | error e => rw [hm] at h; simp at h
    | ok cc =>
      rw [hm] at h
      simp only at h
      split at h
      · simp at h
      · rename_i kind g'' heq
        simp only [Prod.mk.injEq, Except.ok.injEq] at h
        obtain ⟨hd, -⟩ := h
        subst hd
        rfl

/-- Witness for C7 (amended) at a concrete input: the DER `ClientAuth`
case and the `tryFrom` tie-in. -/
theorem client_verify_mode_translation_witness :
    (X509.from_der ⟨some ⟨⟨[]⟩, ⟨[]⟩, 1, 2, none⟩, none⟩ =
      some ⟨⟨[]⟩, ⟨[]⟩, 1, 2, none⟩) ∧
    decode_client_cert_chain
        (.clientAuth (.der ⟨some ⟨⟨[]⟩, ⟨[]⟩, 1, 2, none⟩, none⟩)) =
      .ok (some [⟨⟨[]⟩, ⟨[]⟩, 1, 2, none⟩]) :=
  ⟨by decide,
    client_verify_mode_translation.2.2.1
      ⟨some ⟨⟨[]⟩, ⟨[]⟩, 1, 2, none⟩, none⟩ ⟨⟨[]⟩, ⟨[]⟩, 1, 2, none⟩
      (by decide)⟩

/-- Folding `add_extra_chain_cert` over a list never changes the leaf
certificate slot of the builder. -/
theorem add_extra_fold_cert (rest : List X509) (b : SslAcceptorBuilder) :
    (rest.foldl (fun b' c => b'.add_extra_chain_cert c) b).cert = b.cert := by
  induction rest generalizing b with
  | nil => rfl
  | cons c cs ih =>
    simp only [List.foldl_cons]
    rw [ih]
    rfl

/-- Folding `add_extra_chain_cert` over a list never changes the private
key slot of the builder. -/
theorem add_extra_fold_key (rest : List X509) (b : SslAcceptorBuilder) :
    (rest.foldl (fun b' c => b'.add_extra_chain_cert c) b).key = b.key := by
  induction rest generalizing b with
  | nil => rfl
  | cons c cs ih =>
    simp only [List.foldl_cons]
    rw [ih]
    rfl

/-- Counterexample to claim C2 as stated: a `Static` (Single) source whose
private key (public component 2) does not match the leaf certificate's
public key (1) still translates successfully — no consistency check runs
during `tryFrom`, so a mismatch is not fatal at construction. -/
theorem static_mismatch_translates_successfully :
    decode_private_key (DataEncoding.der ⟨none, some ⟨2⟩⟩) = .ok ⟨2⟩ ∧
    decode_server_cert_chain
        (DataEncoding.der ⟨some ⟨⟨[]⟩, ⟨[]⟩, 9, 1, none⟩, none⟩) =
      .ok [⟨⟨[]⟩, ⟨[]⟩, 9, 1, none⟩] ∧
    (⟨⟨[]⟩, ⟨[]⟩, 9, 1, none⟩ : X509).pubkey ≠ (⟨2⟩ : PKey).pubkey ∧
    ((tryFrom { server_auth := .single
                  ⟨.der ⟨none, some ⟨2⟩⟩,
                    .der ⟨some ⟨⟨[]⟩, ⟨[]⟩, 9, 1, none⟩, none⟩, none⟩
                protocol_versions := none
                application_layer_protocol_negotiation := none
                client_verify_mode := .auto
                key_logger := 0 } ⟨0, []⟩).1).isOk = true := by
  refine ⟨by decide, by decide, by decide, by decide⟩

/-- Claim C2 (amended): for a `Static` (Single) source the private-key /
certificate consistency check is not performed during translation —
`tryFrom` succeeds on any decodable material, mismatched or not — but per
handshake inside `issue_certs`, where `check_private_key` fails for
mismatched material, so it is still never served. -/
theorem static_key_mismatch_checked_at_handshake :
    (∀ (data : ServerAuthData) (chain : List X509) (k : PKey)
        (pv alpn : Option (List Nat)) (kl : Nat) (mode : ClientVerifyMode)
        (cc : Option (List X509)) (g : GenState),
        decode_client_cert_chain mode = .ok cc →
        decode_server_cert_chain data.cert_chain = .ok chain →
        decode_private_key data.private_key = .ok k →
        (tryFrom { server_auth := .single data
                   protocol_versions := pv
                   application_layer_protocol_negotiation := alpn
                   client_verify_mode := mode
                   key_logger := kl } g).1 =
          .ok ⟨{ cert_source := ⟨.inMemory k chain⟩
                 alpn_protocols := alpn
                 keylog_intent := kl
                 protocol_versions := pv
                 client_cert_chain := cc }⟩) ∧
    (∀ (k : PKey) (leaf : X509) (rest : List X509)
        (builder : SslAcceptorBuilder) (server_name : Option Host)
        (now : Nat) (g : GenState),
        leaf.pubkey ≠ k.pubkey →
        builder.cert = none →
        TlsCertSource.issue_certs ⟨.inMemory k (leaf :: rest)⟩ builder
            server_name now g =
          (.error "build boring ssl acceptor: check private key",
            ⟨.inMemory k (leaf :: rest)⟩, g)) ∧
    (∀ (k : PKey) (builder : SslAcceptorBuilder) (server_name : Option Host)
        (now : Nat) (g : GenState),
        builder.cert = none →
        TlsCertSource.issue_certs ⟨.inMemory k []⟩ builder
            server_name now g =
          (.error "build boring ssl acceptor: check private key",
            ⟨.inMemory k []⟩, g)) := by
  refine ⟨?_, ?_, ?_⟩
  · intro data chain k pv alpn kl mode cc g hmode hchain hkey
    unfold tryFrom
    simp [hmode, hchain, hkey]
  · intro k leaf rest builder server_name now g hne hcert
    have h1 : ((add_cert_chain builder (leaf :: rest)).set_private_key k).cert
        = some leaf := by
      show (add_cert_chain builder (leaf :: rest)).cert = some leaf
      unfold add_cert_chain
      rw [add_extra_fold_cert]
      rfl
    have hc : ((add_cert_chain builder
        (leaf :: rest)).set_private_key k).check_private_key = false := by
      unfold SslAcceptorBuilder.check_private_key
      have h2 : ((add_cert_chain builder
          (leaf :: rest)).set_private_key k).key = some k := rfl
      rw [h1, h2]
      simp [hne]
    simp only [TlsCertSource.issue_certs]
    simp [hc]
  · intro k builder server_name now g hcert
    have hc : (builder.set_private_key k).check_private_key = false := by
      unfold SslAcceptorBuilder.check_private_key
      have h1 : (builder.set_private_key k).cert = none := hcert
      rw [h1]
    simp only [TlsCertSource.issue_certs, add_cert_chain]
    simp [hc]

/-- Witness for C2 (amended) at concrete inputs: mismatched static
material translates successfully, and the same mismatched material makes
the per-handshake check in `issue_certs` fail. -/
theorem static_key_mismatch_checked_at_handshake_witness :
    (decode_client_cert_chain .auto = .ok none ∧
      decode_server_cert_chain
          (ServerAuthData.cert_chain
            ⟨.der ⟨none, some ⟨2⟩⟩,
              .der ⟨some ⟨⟨[]⟩, ⟨[]⟩, 9, 1, none⟩, none⟩, none⟩) =
        .ok [⟨⟨[]⟩, ⟨[]⟩, 9, 1, none⟩] ∧
      decode_private_key
          (ServerAuthData.private_key
            ⟨.der ⟨none, some ⟨2⟩⟩,
              .der ⟨some ⟨⟨[]⟩, ⟨[]⟩, 9, 1, none⟩, none⟩, none⟩) = .ok ⟨2⟩ ∧
      (tryFrom { server_auth := .single
                   ⟨.der ⟨none, some ⟨2⟩⟩,
                     .der ⟨some ⟨⟨[]⟩, ⟨[]⟩, 9, 1, none⟩, none⟩, none⟩
                 protocol_versions := none
                 application_layer_protocol_negotiation := none
                 client_verify_mode := .auto
                 key_logger := 0 } ⟨0, []⟩).1 =
        .ok ⟨{ cert_source := ⟨.inMemory ⟨2⟩ [⟨⟨[]⟩, ⟨[]⟩, 9, 1, none⟩]⟩
               alpn_protocols := none
               keylog_intent := 0
               protocol_versions := none
               client_cert_chain := none }⟩) ∧
    ((⟨⟨[]⟩, ⟨[]⟩, 9, 1, none⟩ : X509).pubkey ≠ (⟨2⟩ : PKey).pubkey ∧
      (⟨none, [], none⟩ : SslAcceptorBuilder).cert = none ∧
      TlsCertSource.issue_certs
          ⟨.inMemory ⟨2⟩ [⟨⟨[]⟩, ⟨[]⟩, 9, 1, none⟩]⟩ ⟨none, [], none⟩ none 0
          ⟨0, []⟩ =
        (.error "build boring ssl acceptor: check private key",
          ⟨.inMemory ⟨2⟩ [⟨⟨[]⟩, ⟨[]⟩, 9, 1, none⟩]⟩, ⟨0, []⟩)) :=
  ⟨⟨by decide, by decide, by decide,
      static_key_mismatch_checked_at_handshake.1
        ⟨.der ⟨none, some ⟨2⟩⟩,
          .der ⟨some ⟨⟨[]⟩, ⟨[]⟩, 9, 1, none⟩, none⟩, none⟩
        [⟨⟨[]⟩, ⟨[]⟩, 9, 1, none⟩] ⟨2⟩ none none 0 .auto none ⟨0, []⟩
        (by decide) (by decide) (by decide)⟩,
    ⟨by decide, by decide,
      static_key_mismatch_checked_at_handshake.2.1 ⟨2⟩
        ⟨⟨[]⟩, ⟨[]⟩, 9, 1, none⟩ [] ⟨none, [], none⟩ none 0 ⟨0, []⟩
        (by decide) (by decide)⟩⟩

/-- `issue_cert_for_ca` always advances the generation oracle by exactly
one attempt, whether it succeeds or fails. -/
theorem issue_cert_for_ca_genstate (server_name : Option Host)
    (ca_cert : X509) (ca_key : PKey) (g : GenState) :
    (issue_cert_for_ca server_name ca_cert ca_key g).2 = g.bump := by
  unfold issue_cert_for_ca self_signed_server_auth_gen_cert
  cases hf : g.fails <;> simp [hf]

/-- Claim C4: resolving with no requested hostname against an Issuing
source performs a fresh generation on every call (exactly one generation
attempt per call, yielding a fresh serial on success), derives the
organisation name from the CA certificate's own subject (falling back to
"Anonymous") as a best-effort default, and neither consults nor populates
the cache: the source — cache included — is returned unchanged. -/
theorem issuing_no_sni_fresh_and_cache_untouched
    (c : Cache) (ca_key : PKey) (ca_cert : X509)
    (builder : SslAcceptorBuilder) (now : Nat) (g : GenState) :
    (∀ (r : Except String SslAcceptorBuilder) (src' : TlsCertSource)
        (g' : GenState),
        TlsCertSource.issue_certs ⟨.inMemoryIssuer c ca_key ca_cert⟩
            builder none now g = (r, src', g') →
        src' = ⟨.inMemoryIssuer c ca_key ca_cert⟩ ∧ g' = g.bump) ∧
    (g.fails = false →
      ∃ ic : IssuedCert,
        issue_cert_for_ca none ca_cert ca_key g = (.ok ic, g.bump) ∧
        TlsCertSource.issue_certs ⟨.inMemoryIssuer c ca_key ca_cert⟩ builder
            none now g =
          (add_issued_cert_to_cert_builder ic ca_cert builder,
            ⟨.inMemoryIssuer c ca_key ca_cert⟩, g.bump) ∧
        ic.cert.serial = g.counter ∧
        (ic.cert.subject_name.entries.find?
            (fun e => e.1 == Nid.organizationName)).map (fun e => e.2) =
          some (((ca_cert.subject_name.entries.find?
              (fun e => e.1 == Nid.organizationName)).map
            (fun e => e.2)).getD "Anonymous")) := by
  constructor
  · intro r src' g' h
    simp only [TlsCertSource.issue_certs] at h
    have hg2 := issue_cert_for_ca_genstate none ca_cert ca_key g
    cases hgen : issue_cert_for_ca none ca_cert ca_key g with
    | mk res g0 =>
      rw [hgen] at h hg2
      simp only at hg2
      cases res with
      | ok ic =>
        simp only [Prod.mk.injEq] at h
        exact ⟨h.2.1.symm, h.2.2.symm.trans hg2⟩
      | error e =>
        simp only [Prod.mk.injEq] at h
        exact ⟨h.2.1.symm, h.2.2.symm.trans hg2⟩
  · intro hok
    refine ⟨⟨⟨⟨(Nid.organizationName,
        ((ca_cert.subject_name.entries.find?
            (fun e => e.1 == Nid.organizationName)).map
          (fun e => e.2)).getD "Anonymous") ::
        [(Nid.commonName, (Host.name "localhost").render)]⟩,
        ca_cert.subject_name, g.counter, g.counter, some
          [SanEntry.dns "localhost"]⟩, ⟨g.counter⟩⟩, ?_, ?_, rfl, ?_⟩
    · unfold issue_cert_for_ca self_signed_server_auth_gen_cert
      rw [hok]
      rfl
    · simp only [TlsCertSource.issue_certs]
      have hgen : issue_cert_for_ca none ca_cert ca_key g =
          (.ok ⟨⟨⟨(Nid.organizationName,
            ((ca_cert.subject_name.entries.find?
                (fun e => e.1 == Nid.organizationName)).map
              (fun e => e.2)).getD "Anonymous") ::
            [(Nid.commonName, (Host.name "localhost").render)]⟩,
            ca_cert.subject_name, g.counter, g.counter, some
              [SanEntry.dns "localhost"]⟩, ⟨g.counter⟩⟩, g.bump) := by
        unfold issue_cert_for_ca self_signed_server_auth_gen_cert
        rw [hok]
        rfl
      rw [hgen]
    · simp [List.find?]

/-- Witness for C4 at a concrete input. -/
theorem issuing_no_sni_fresh_and_cache_untouched_witness :
    (⟨0, []⟩ : GenState).fails = false ∧
    ∃ ic : IssuedCert,
      issue_cert_for_ca none ⟨⟨[(Nid.organizationName, "Acme")]⟩, ⟨[]⟩, 7,
          42, none⟩ ⟨42⟩ ⟨0, []⟩ = (.ok ic, GenState.bump ⟨0, []⟩) ∧
      TlsCertSource.issue_certs
          ⟨.inMemoryIssuer ⟨100, 8, []⟩ ⟨42⟩
            ⟨⟨[(Nid.organizationName, "Acme")]⟩, ⟨[]⟩, 7, 42, none⟩⟩
          ⟨none, [], none⟩ none 0 ⟨0, []⟩ =
        (add_issued_cert_to_cert_builder ic
            ⟨⟨[(Nid.organizationName, "Acme")]⟩, ⟨[]⟩, 7, 42, none⟩
            ⟨none, [], none⟩,
          ⟨.inMemoryIssuer ⟨100, 8, []⟩ ⟨42⟩
            ⟨⟨[(Nid.organizationName, "Acme")]⟩, ⟨[]⟩, 7, 42, none⟩⟩,
          GenState.bump ⟨0, []⟩) ∧
      ic.cert.serial = (⟨0, []⟩ : GenState).counter ∧
      (ic.cert.subject_name.entries.find?
          (fun e => e.1 == Nid.organizationName)).map (fun e => e.2) =
        some ((((⟨⟨[(Nid.organizationName, "Acme")]⟩, ⟨[]⟩, 7, 42,
              none⟩ : X509).subject_name.entries.find?
            (fun e => e.1 == Nid.organizationName)).map
          (fun e => e.2)).getD "Anonymous") :=
  ⟨by decide,
    (issuing_no_sni_fresh_and_cache_untouched ⟨100, 8, []⟩ ⟨42⟩
      ⟨⟨[(Nid.organizationName, "Acme")]⟩, ⟨[]⟩, 7, 42, none⟩
      ⟨none, [], none⟩ 0 ⟨0, []⟩).2 (by decide)⟩

/-- A fresh insertion is found live again as long as the lookup happens
before the entry's expiry (and the capacity admits at least one entry). -/
theorem Cache.lookupLive_insert_self (c : Cache) (now t2 : Nat) (k : Host)
    (v : IssuedCert) (hcap : 0 < c.maxCapacity)
    (hlive : t2 < now + c.ttl) :
    (c.insert now k v).lookupLive t2 k = some v := by
  unfold Cache.insert Cache.lookupLive
  obtain ⟨m, hm⟩ : ∃ m, c.maxCapacity = m + 1 :=
    ⟨c.maxCapacity - 1, (Nat.succ_pred_eq_of_pos hcap).symm⟩
  rw [hm]
  simp [List.take_succ_cons, List.find?_cons, hlive]

/-- After the entry's expiry the inserted key is no longer found: the
fresh entry fails the liveness test and every other kept entry has a
different key. -/
theorem Cache.lookupLive_insert_expired (c : Cache) (now t3 : Nat) (k : Host)
    (v : IssuedCert) (hexp : now + c.ttl ≤ t3) :
    (c.insert now k v).lookupLive t3 k = none := by
  unfold Cache.insert Cache.lookupLive
  simp only [Option.map_eq_none']
  rw [List.find?_eq_none]
  intro e he
  have he' := List.mem_of_mem_take he
  rcases List.mem_cons.mp he' with rfl | hkept
  · simp [Nat.not_lt.mpr hexp]
  · have := (List.mem_filter.mp hkept).2
    simp only [Bool.and_eq_true, Bool.not_eq_true'] at this
    simp [this.1]

/-- When the generation oracle does not fail, `issue_cert_for_ca` succeeds
with a certificate whose serial, public key and private key all carry the
fresh counter value. -/
theorem issue_cert_for_ca_ok (server_name : Option Host) (ca_cert : X509)
    (ca_key : PKey) (g : GenState) (hok : g.fails = false) :
    ∃ ic : IssuedCert,
      issue_cert_for_ca server_name ca_cert ca_key g = (.ok ic, g.bump) ∧
      ic.cert.serial = g.counter ∧ ic.cert.pubkey = g.counter ∧
      ic.key.pubkey = g.counter := by
  unfold issue_cert_for_ca self_signed_server_auth_gen_cert
  simp only [hok, Bool.false_eq_true, if_false]
  exact ⟨_, rfl, rfl, rfl, rfl⟩

/-- When the generation oracle fails, `issue_cert_for_ca` returns the
key-generation error and still consumes the attempt. -/
theorem issue_cert_for_ca_fail (server_name : Option Host) (ca_cert : X509)
    (ca_key : PKey) (g : GenState) (hf : g.fails = true) :
    issue_cert_for_ca server_name ca_cert ca_key g =
      (.error "generate 4096 RSA key", g.bump) := by
  unfold issue_cert_for_ca self_signed_server_auth_gen_cert
  simp [hf]

/-- `issue_certs` on an Issuing source with a live cached entry returns
that entry, leaves the cache unchanged and performs no generation. -/
theorem issue_certs_hit (c : Cache) (ca_key : PKey) (ca_cert : X509)
    (h : Host) (b : SslAcceptorBuilder) (t : Nat) (g : GenState)
    (ic : IssuedCert) (hhit : c.lookupLive t h = some ic) :
    TlsCertSource.issue_certs ⟨.inMemoryIssuer c ca_key ca_cert⟩ b (some h)
        t g =
      (add_issued_cert_to_cert_builder ic ca_cert b,
        ⟨.inMemoryIssuer c ca_key ca_cert⟩, g) := by
  simp only [TlsCertSource.issue_certs, Cache.tryGetWith, hhit]

/-- `issue_certs` on an Issuing source with no live entry runs the fill;
on success the result is inserted with a fresh expiry. -/
theorem issue_certs_miss_ok (c : Cache) (ca_key : PKey) (ca_cert : X509)
    (h : Host) (b : SslAcceptorBuilder) (t : Nat) (g : GenState)
    (ic : IssuedCert) (hmiss : c.lookupLive t h = none)
    (hfill : issue_cert_for_ca (some h) ca_cert ca_key g =
      (.ok ic, g.bump)) :
    TlsCertSource.issue_certs ⟨.inMemoryIssuer c ca_key ca_cert⟩ b (some h)
        t g =
      (add_issued_cert_to_cert_builder ic ca_cert b,
        ⟨.inMemoryIssuer (c.insert t h ic) ca_key ca_cert⟩, g.bump) := by
  simp only [TlsCertSource.issue_certs, Cache.tryGetWith, hmiss, hfill]

/-- `issue_certs` on an Issuing source with no live entry whose fill fails
returns the contextualised error and leaves the cache unchanged. -/
theorem issue_certs_miss_error (c : Cache) (ca_key : PKey) (ca_cert : X509)
    (h : Host) (b : SslAcceptorBuilder) (t : Nat) (g : GenState)
    (e : String) (hmiss : c.lookupLive t h = none)
    (hfill : issue_cert_for_ca (some h) ca_cert ca_key g =
      (.error e, g.bump)) :
    TlsCertSource.issue_certs ⟨.inMemoryIssuer c ca_key ca_cert⟩ b (some h)
        t g =
      (.error ("fresh issue of cert + insert: " ++ e),
        ⟨.inMemoryIssuer c ca_key ca_cert⟩, g.bump) := by
  simp only [TlsCertSource.issue_certs, Cache.tryGetWith, hmiss, hfill]

/-- Claim C3: resolving hostname `h` twice against the same Issuing source
within the TTL returns the identical issued certificate (same serial,
taken from the cache) with no second generation (the oracle does not
advance and the source is unchanged); resolving after the TTL has elapsed
runs a fresh generation yielding a certificate with a new serial. -/
theorem issuing_cache_hit_within_ttl_new_serial_after_expiry
    (c : Cache) (ca_key : PKey) (ca_cert : X509) (h : Host)
    (b1 b2 b3 : SslAcceptorBuilder) (t1 t2 t3 : Nat) (g : GenState)
    (hcap : 0 < c.maxCapacity)
    (hmiss : c.lookupLive t1 h = none)
    (hok1 : g.fails = false)
    (hok2 : g.bump.fails = false)
    (hlive : t2 < t1 + c.ttl)
    (hexp : t1 + c.ttl ≤ t3) :
    ∃ ic : IssuedCert,
      issue_cert_for_ca (some h) ca_cert ca_key g = (.ok ic, g.bump) ∧
      ic.cert.serial = g.counter ∧
      TlsCertSource.issue_certs ⟨.inMemoryIssuer c ca_key ca_cert⟩ b1
          (some h) t1 g =
        (add_issued_cert_to_cert_builder ic ca_cert b1,
          ⟨.inMemoryIssuer (c.insert t1 h ic) ca_key ca_cert⟩, g.bump) ∧
      TlsCertSource.issue_certs
          ⟨.inMemoryIssuer (c.insert t1 h ic) ca_key ca_cert⟩ b2 (some h)
          t2 g.bump =
        (add_issued_cert_to_cert_builder ic ca_cert b2,
          ⟨.inMemoryIssuer (c.insert t1 h ic) ca_key ca_cert⟩, g.bump) ∧
      ∃ ic2 : IssuedCert,
        issue_cert_for_ca (some h) ca_cert ca_key g.bump =
          (.ok ic2, g.bump.bump) ∧
        ic2.cert.serial = g.counter + 1 ∧
        ic2.cert.serial ≠ ic.cert.serial ∧
        TlsCertSource.issue_certs
            ⟨.inMemoryIssuer (c.insert t1 h ic) ca_key ca_cert⟩ b3 (some h)
            t3 g.bump =
          (add_issued_cert_to_cert_builder ic2 ca_cert b3,
            ⟨.inMemoryIssuer ((c.insert t1 h ic).insert t3 h ic2) ca_key
              ca_cert⟩, g.bump.bump) := by
  obtain ⟨ic, hfill1, hser1, -, -⟩ :=
    issue_cert_for_ca_ok (some h) ca_cert ca_key g hok1
  obtain ⟨ic2, hfill2, hser2, -, -⟩ :=
    issue_cert_for_ca_ok (some h) ca_cert ca_key g.bump hok2
  refine ⟨ic, hfill1, hser1, ?_, ?_, ic2, hfill2, ?_, ?_, ?_⟩
  · exact issue_certs_miss_ok c ca_key ca_cert h b1 t1 g ic hmiss hfill1
  · exact issue_certs_hit (c.insert t1 h ic) ca_key ca_cert h b2 t2 g.bump
      ic (Cache.lookupLive_insert_self c t1 t2 h ic hcap hlive)
  · simpa [GenState.bump] using hser2
  · rw [hser1]
    have : ic2.cert.serial = g.counter + 1 := by
      simpa [GenState.bump] using hser2
    rw [this]
    exact Nat.succ_ne_self g.counter
  · exact issue_certs_miss_ok (c.insert t1 h ic) ca_key ca_cert h b3 t3
      g.bump ic2
      (Cache.lookupLive_insert_expired c t1 t3 h ic hexp) hfill2

/-- Witness for C3 at a concrete input (TTL 100s cache, resolutions at
times 0, 50 and 100). -/
theorem issuing_cache_hit_within_ttl_new_serial_after_expiry_witness :
    0 < (⟨100, 8, []⟩ : Cache).maxCapacity ∧
    (⟨100, 8, []⟩ : Cache).lookupLive 0 (Host.name "example.com") = none ∧
    (⟨0, []⟩ : GenState).fails = false ∧
    (GenState.bump ⟨0, []⟩).fails = false ∧
    50 < 0 + (⟨100, 8, []⟩ : Cache).ttl ∧
    0 + (⟨100, 8, []⟩ : Cache).ttl ≤ 100 ∧
    ∃ ic : IssuedCert,
      issue_cert_for_ca (some (Host.name "example.com"))
          ⟨⟨[(Nid.organizationName, "Acme")]⟩, ⟨[]⟩, 7, 42, none⟩ ⟨42⟩
          ⟨0, []⟩ = (.ok ic, GenState.bump ⟨0, []⟩) ∧
      ic.cert.serial = (⟨0, []⟩ : GenState).counter ∧
      TlsCertSource.issue_certs
          ⟨.inMemoryIssuer ⟨100, 8, []⟩ ⟨42⟩
            ⟨⟨[(Nid.organizationName, "Acme")]⟩, ⟨[]⟩, 7, 42, none⟩⟩
          ⟨none, [], none⟩ (some (Host.name "example.com")) 0 ⟨0, []⟩ =
        (add_issued_cert_to_cert_builder ic
            ⟨⟨[(Nid.organizationName, "Acme")]⟩, ⟨[]⟩, 7, 42, none⟩
            ⟨none, [], none⟩,
          ⟨.inMemoryIssuer
            ((⟨100, 8, []⟩ : Cache).insert 0 (Host.name "example.com") ic)
            ⟨42⟩ ⟨⟨[(Nid.organizationName, "Acme")]⟩, ⟨[]⟩, 7, 42, none⟩⟩,
          GenState.bump ⟨0, []⟩) ∧
      TlsCertSource.issue_certs
          ⟨.inMemoryIssuer
            ((⟨100, 8, []⟩ : Cache).insert 0 (Host.name "example.com") ic)
            ⟨42⟩ ⟨⟨[(Nid.organizationName, "Acme")]⟩, ⟨[]⟩, 7, 42, none⟩⟩
          ⟨none, [], none⟩ (some (Host.name "example.com")) 50
          (GenState.bump ⟨0, []⟩) =
        (add_issued_cert_to_cert_builder ic
            ⟨⟨[(Nid.organizationName, "Acme")]⟩, ⟨[]⟩, 7, 42, none⟩
            ⟨none, [], none⟩,
          ⟨.inMemoryIssuer
            ((⟨100, 8, []⟩ : Cache).insert 0 (Host.name "example.com") ic)
            ⟨42⟩ ⟨⟨[(Nid.organizationName, "Acme")]⟩, ⟨[]⟩, 7, 42, none⟩⟩,
          GenState.bump ⟨0, []⟩) ∧
      ∃ ic2 : IssuedCert,
        issue_cert_for_ca (some (Host.name "example.com"))
            ⟨⟨[(Nid.organizationName, "Acme")]⟩, ⟨[]⟩, 7, 42, none⟩ ⟨42⟩
            (GenState.bump ⟨0, []⟩) =
          (.ok ic2, GenState.bump (GenState.bump ⟨0, []⟩)) ∧
        ic2.cert.serial = (⟨0, []⟩ : GenState).counter + 1 ∧
        ic2.cert.serial ≠ ic.cert.serial ∧
        TlsCertSource.issue_certs
            ⟨.inMemoryIssuer
              ((⟨100, 8, []⟩ : Cache).insert 0 (Host.name "example.com") ic)
              ⟨42⟩ ⟨⟨[(Nid.organizationName, "Acme")]⟩, ⟨[]⟩, 7, 42, none⟩⟩
            ⟨none, [], none⟩ (some (Host.name "example.com")) 100
            (GenState.bump ⟨0, []⟩) =
          (add_issued_cert_to_cert_builder ic2
              ⟨⟨[(Nid.organizationName, "Acme")]⟩, ⟨[]⟩, 7, 42, none⟩
              ⟨none, [], none⟩,
            ⟨.inMemoryIssuer
              (((⟨100, 8, []⟩ : Cache).insert 0 (Host.name "example.com")
                  ic).insert 100 (Host.name "example.com") ic2)
              ⟨42⟩ ⟨⟨[(Nid.organizationName, "Acme")]⟩, ⟨[]⟩, 7, 42, none⟩⟩,
            GenState.bump (GenState.bump ⟨0, []⟩)) :=
  ⟨by decide, by decide, by decide, by decide, by decide, by decide,
    issuing_cache_hit_within_ttl_new_serial_after_expiry ⟨100, 8, []⟩ ⟨42⟩
      ⟨⟨[(Nid.organizationName, "Acme")]⟩, ⟨[]⟩, 7, 42, none⟩
      (Host.name "example.com") ⟨none, [], none⟩ ⟨none, [], none⟩
      ⟨none, [], none⟩ 0 50 100 ⟨0, []⟩ (by decide) (by decide) (by decide)
      (by decide) (by decide) (by decide)⟩

/-- Claim C9: a failed in-flight generation for hostname `h` is not stored
in the cache — the error is returned with the source (and cache) unchanged
— and the next resolution of `h` (still a miss) runs a brand-new
generation attempt from scratch (the oracle advances again). -/
theorem issuing_no_negative_caching
    (c : Cache) (ca_key : PKey) (ca_cert : X509) (h : Host)
    (b1 b2 : SslAcceptorBuilder) (t1 t2 : Nat) (g : GenState)
    (hmiss1 : c.lookupLive t1 h = none)
    (hfail : g.fails = true)
    (hmiss2 : c.lookupLive t2 h = none) :
    TlsCertSource.issue_certs ⟨.inMemoryIssuer c ca_key ca_cert⟩ b1 (some h)
        t1 g =
      (.error ("fresh issue of cert + insert: " ++ "generate 4096 RSA key"),
        ⟨.inMemoryIssuer c ca_key ca_cert⟩, g.bump) ∧
    ∃ (r : Except String SslAcceptorBuilder) (src' : TlsCertSource),
      TlsCertSource.issue_certs ⟨.inMemoryIssuer c ca_key ca_cert⟩ b2
          (some h) t2 g.bump = (r, src', g.bump.bump) := by
  constructor
  · exact issue_certs_miss_error c ca_key ca_cert h b1 t1 g
      "generate 4096 RSA key" hmiss1
      (issue_cert_for_ca_fail (some h) ca_cert ca_key g hfail)
  · cases hfb : (g.bump).fails with
    | false =>
      obtain ⟨ic, hfill, -, -, -⟩ :=
        issue_cert_for_ca_ok (some h) ca_cert ca_key g.bump hfb
      exact ⟨_, _, issue_certs_miss_ok c ca_key ca_cert h b2 t2 g.bump ic
        hmiss2 hfill⟩
    | true =>
      exact ⟨_, _, issue_certs_miss_error c ca_key ca_cert h b2 t2 g.bump
        "generate 4096 RSA key" hmiss2
        (issue_cert_for_ca_fail (some h) ca_cert ca_key g.bump hfb)⟩

/-- Witness for C9 at a concrete input (the first generation attempt is
scripted to fail). -/
theorem issuing_no_negative_caching_witness :
    (⟨100, 8, []⟩ : Cache).lookupLive 0 (Host.name "h.test") = none ∧
    (⟨0, [0]⟩ : GenState).fails = true ∧
    (⟨100, 8, []⟩ : Cache).lookupLive 5 (Host.name "h.test") = none ∧
    (TlsCertSource.issue_certs
        ⟨.inMemoryIssuer ⟨100, 8, []⟩ ⟨42⟩ ⟨⟨[]⟩, ⟨[]⟩, 7, 42, none⟩⟩
        ⟨none, [], none⟩ (some (Host.name "h.test")) 0 ⟨0, [0]⟩ =
      (.error ("fresh issue of cert + insert: " ++ "generate 4096 RSA key"),
        ⟨.inMemoryIssuer ⟨100, 8, []⟩ ⟨42⟩ ⟨⟨[]⟩, ⟨[]⟩, 7, 42, none⟩⟩,
        GenState.bump ⟨0, [0]⟩) ∧
      ∃ (r : Except String SslAcceptorBuilder) (src' : TlsCertSource),
        TlsCertSource.issue_certs
            ⟨.inMemoryIssuer ⟨100, 8, []⟩ ⟨42⟩ ⟨⟨[]⟩, ⟨[]⟩, 7, 42, none⟩⟩
            ⟨none, [], none⟩ (some (Host.name "h.test")) 5
            (GenState.bump ⟨0, [0]⟩) =
          (r, src', GenState.bump (GenState.bump ⟨0, [0]⟩))) :=
  ⟨by decide, by decide, by decide,
    issuing_no_negative_caching ⟨100, 8, []⟩ ⟨42⟩ ⟨⟨[]⟩, ⟨[]⟩, 7, 42, none⟩
      (Host.name "h.test") ⟨none, [], none⟩ ⟨none, [], none⟩ 0 5 ⟨0, [0]⟩
      (by decide) (by decide) (by decide)⟩

/-- Iterate `issue_certs` over a sequence of resolutions (requested
hostname, time), each starting from a fresh empty builder, threading the
source and the generation oracle. -/
def issueMany (src : TlsCertSource) (reqs : List (Option Host × Nat))
    (g : GenState) : TlsCertSource × GenState :=
  match reqs with
  | [] => (src, g)
  | (server_name, now) :: rest =>
    let r := TlsCertSource.issue_certs src ⟨none, [], none⟩ server_name now g
    issueMany r.2.1 rest r.2.2

/-- An insertion never leaves more entries than the capacity. -/
theorem Cache.insert_length_le (c : Cache) (now : Nat) (k : Host)
    (v : IssuedCert) :
    (c.insert now k v).entries.length ≤ c.maxCapacity := by
  unfold Cache.insert
  simp only [List.length_take]
  exact Nat.min_le_left _ _

/-- One `issue_certs` call on an Issuing source keeps the CA material and
either leaves the cache unchanged or performs exactly one insertion. -/
theorem issue_certs_issuer_cache_step (c : Cache) (ca_key : PKey)
    (ca_cert : X509) (b : SslAcceptorBuilder) (server_name : Option Host)
    (now : Nat) (g : GenState) :
    ∃ (c' : Cache) (g' : GenState) (r : Except String SslAcceptorBuilder),
      TlsCertSource.issue_certs ⟨.inMemoryIssuer c ca_key ca_cert⟩ b
          server_name now g = (r, ⟨.inMemoryIssuer c' ca_key ca_cert⟩, g') ∧
      (c' = c ∨ ∃ (k : Host) (v : IssuedCert), c' = c.insert now k v) := by
  cases server_name with
  | none =>
    cases hres : issue_cert_for_ca none ca_cert ca_key g with
    | mk res g0 =>
      cases res with
      | ok ic =>
        refine ⟨c, g0, add_issued_cert_to_cert_builder ic ca_cert b, ?_,
          Or.inl rfl⟩
        simp only [TlsCertSource.issue_certs, hres]
      | error e =>
        refine ⟨c, g0, .error e, ?_, Or.inl rfl⟩
        simp only [TlsCertSource.issue_certs, hres]
  | some h =>
    cases hlook : c.lookupLive now h with
    | some ic =>
      refine ⟨c, g, add_issued_cert_to_cert_builder ic ca_cert b, ?_,
        Or.inl rfl⟩
      simp only [TlsCertSource.issue_certs, Cache.tryGetWith, hlook]
    | none =>
      cases hres : issue_cert_for_ca (some h) ca_cert ca_key g with
      | mk res g0 =>
        cases res with
        | ok ic =>
          refine ⟨c.insert now h ic, g0,
            add_issued_cert_to_cert_builder ic ca_cert b, ?_,
            Or.inr ⟨h, ic, rfl⟩⟩
          simp only [TlsCertSource.issue_certs, Cache.tryGetWith, hlook,
            hres]
        | error e =>
          refine ⟨c, g0, .error ("fresh issue of cert + insert: " ++ e), ?_,
            Or.inl rfl⟩
          simp only [TlsCertSource.issue_certs, Cache.tryGetWith, hlook,
            hres]

/-- Any sequence of resolutions preserves the capacity bound of the
Issuing source's cache. -/
theorem issueMany_capacity (reqs : List (Option Host × Nat)) :
    ∀ (c : Cache) (ca_key : PKey) (ca_cert : X509) (g : GenState),
      c.entries.length ≤ c.maxCapacity →
      ∃ (c' : Cache) (g' : GenState),
        issueMany ⟨.inMemoryIssuer c ca_key ca_cert⟩ reqs g =
          (⟨.inMemoryIssuer c' ca_key ca_cert⟩, g') ∧
        c'.entries.length ≤ c'.maxCapacity ∧
        c'.maxCapacity = c.maxCapacity := by
  induction reqs with
  | nil => exact fun c caK caC g hlen => ⟨c, g, rfl, hlen, rfl⟩
  | cons req rest ih =>
    intro c caK caC g hlen
    obtain ⟨name, now⟩ := req
    obtain ⟨c1, g1, r, hstep, hc1⟩ :=
      issue_certs_issuer_cache_step c caK caC ⟨none, [], none⟩ name now g
    have hcap1 : c1.maxCapacity = c.maxCapacity := by
      rcases hc1 with rfl | ⟨k, v, rfl⟩
      · rfl
      · rfl
    have hlen1 : c1.entries.length ≤ c1.maxCapacity := by
      rcases hc1 with rfl | ⟨k, v, rfl⟩
      · exact hlen
      · exact Cache.insert_length_le c now k v
    obtain ⟨c', g', hrun, hlen', hcap'⟩ := ih c1 caK caC g1 hlen1
    refine ⟨c', g', ?_, hlen', hcap'.trans hcap1⟩
    simp only [issueMany, hstep]
    exact hrun

/-- Claim C5: translating a `CertIssuer` configuration builds an Issuing
source whose cache starts empty with TTL 89 days and capacity
`max_cache_size` (8096 when that is 0, i.e. not overridden), and no
sequence of resolutions can push the number of live cache entries past
that capacity: the cache evicts on insertion to stay within bound. -/
theorem issuing_cache_never_exceeds_capacity :
    (∀ (data : ServerCertIssuerData) (pv alpn : Option (List Nat)) (kl : Nat)
        (mode : ClientVerifyMode) (cc : Option (List X509)) (g g' : GenState)
        (d : TlsAcceptorData),
        decode_client_cert_chain mode = .ok cc →
        tryFrom { server_auth := .certIssuer data
                  protocol_versions := pv
                  application_layer_protocol_negotiation := alpn
                  client_verify_mode := mode
                  key_logger := kl } g = (.ok d, g') →
        ∃ (c0 : Cache) (caK : PKey) (caC : X509),
          d.config.cert_source.kind = .inMemoryIssuer c0 caK caC ∧
          c0.ttl = 60 * 60 * 24 * 89 ∧
          c0.maxCapacity =
            (if data.max_cache_size = 0 then 8096 else data.max_cache_size) ∧
          c0.entries = []) ∧
    (∀ (reqs : List (Option Host × Nat)) (c : Cache) (ca_key : PKey)
        (ca_cert : X509) (g : GenState),
        c.entries.length ≤ c.maxCapacity →
        ∃ (c' : Cache) (g' : GenState),
          issueMany ⟨.inMemoryIssuer c ca_key ca_cert⟩ reqs g =
            (⟨.inMemoryIssuer c' ca_key ca_cert⟩, g') ∧
          c'.entries.length ≤ c'.maxCapacity ∧
          c'.maxCapacity = c.maxCapacity) := by
  constructor
  · intro data pv alpn kl mode cc g g' d hmode h
    obtain ⟨kind, mcs⟩ := data
    unfold tryFrom at h
    cases kind with
    | selfSigned d' =>
      cases hca : self_signed_server_ca d' g with
      | mk res g0 =>
        cases res with
        | ok p =>
          obtain ⟨caC, caK⟩ := p
          simp only [hmode, hca, Prod.mk.injEq, Except.ok.injEq] at h
          obtain ⟨hd, -⟩ := h
          subst hd
          exact ⟨_, _, _, rfl, rfl, rfl, rfl⟩
        | error e =>
          simp only [hmode, hca] at h
          exact absurd h (by simp)
    | single d' =>
      cases hdc : decode_ca_cert_chain d'.cert_chain with
      | error e =>
        simp only [hmode, hdc] at h
        exact absurd h (by simp)
      | ok chain =>
        cases hlast : chain.getLast? with
        | none =>
          simp only [hmode, hdc, hlast] at h
          exact absurd h (by simp)
        | some caC =>
          cases hkey : decode_ca_private_key d'.private_key with
          | error e =>
            simp only [hmode, hdc, hlast, hkey] at h
            exact absurd h (by simp)
          | ok caK =>
            simp only [hmode, hdc, hlast, hkey, Prod.mk.injEq,
              Except.ok.injEq] at h
            obtain ⟨hd, -⟩ := h
            subst hd
            exact ⟨_, _, _, rfl, rfl, rfl, rfl⟩
  · exact fun reqs c caK caC g hlen =>
      issueMany_capacity reqs c caK caC g hlen

/-- Witness for C5 at concrete inputs: a default-capacity translation and
a three-resolution run against a capacity-2 cache. -/
theorem issuing_cache_never_exceeds_capacity_witness :
    (decode_client_cert_chain .auto = .ok none ∧
      tryFrom { server_auth := .certIssuer ⟨.selfSigned ⟨none, none, none⟩, 0⟩
                protocol_versions := none
                application_layer_protocol_negotiation := none
                client_verify_mode := .auto
                key_logger := 0 } ⟨0, []⟩ =
        (.ok ⟨{ cert_source := ⟨.inMemoryIssuer ⟨60 * 60 * 24 * 89, 8096, []⟩
                  ⟨0⟩ ⟨⟨[(Nid.organizationName, "Anonymous"),
                        (Nid.commonName, "localhost")]⟩,
                    ⟨[(Nid.organizationName, "Anonymous"),
                      (Nid.commonName, "localhost")]⟩, 0, 0, none⟩⟩
                alpn_protocols := none
                keylog_intent := 0
                protocol_versions := none
                client_cert_chain := none }⟩, ⟨1, []⟩) ∧
      ∃ (c0 : Cache) (caK : PKey) (caC : X509),
        (⟨{ cert_source := ⟨.inMemoryIssuer ⟨60 * 60 * 24 * 89, 8096, []⟩
              ⟨0⟩ ⟨⟨[(Nid.organizationName, "Anonymous"),
                    (Nid.commonName, "localhost")]⟩,
                ⟨[(Nid.organizationName, "Anonymous"),
                  (Nid.commonName, "localhost")]⟩, 0, 0, none⟩⟩
            alpn_protocols := none
            keylog_intent := 0
            protocol_versions := none
            client_cert_chain := none
            }⟩ : TlsAcceptorData).config.cert_source.kind =
          .inMemoryIssuer c0 caK caC ∧
        c0.ttl = 60 * 60 * 24 * 89 ∧
        c0.maxCapacity = (if (⟨.selfSigned ⟨none, none, none⟩,
            0⟩ : ServerCertIssuerData).max_cache_size = 0 then 8096
          else (⟨.selfSigned ⟨none, none, none⟩,
            0⟩ : ServerCertIssuerData).max_cache_size) ∧
        c0.entries = []) ∧
    ((⟨100, 2, []⟩ : Cache).entries.length ≤
        (⟨100, 2, []⟩ : Cache).maxCapacity ∧
      ∃ (c' : Cache) (g' : GenState),
        issueMany ⟨.inMemoryIssuer ⟨100, 2, []⟩ ⟨42⟩ ⟨⟨[]⟩, ⟨[]⟩, 7, 42,
            none⟩⟩
          [(some (Host.name "a.test"), 0), (some (Host.name "b.test"), 1),
            (some (Host.name "c.test"), 2)] ⟨0, []⟩ =
          (⟨.inMemoryIssuer c' ⟨42⟩ ⟨⟨[]⟩, ⟨[]⟩, 7, 42, none⟩⟩, g') ∧
        c'.entries.length ≤ c'.maxCapacity ∧
        c'.maxCapacity = (⟨100, 2, []⟩ : Cache).maxCapacity) :=
  ⟨⟨by decide, by decide,
      issuing_cache_never_exceeds_capacity.1
        ⟨.selfSigned ⟨none, none, none⟩, 0⟩ none none 0 .auto none ⟨0, []⟩
        ⟨1, []⟩
        ⟨{ cert_source := ⟨.inMemoryIssuer ⟨60 * 60 * 24 * 89, 8096, []⟩
              ⟨0⟩ ⟨⟨[(Nid.organizationName, "Anonymous"),
                    (Nid.commonName, "localhost")]⟩,
                ⟨[(Nid.organizationName, "Anonymous"),
                  (Nid.commonName, "localhost")]⟩, 0, 0, none⟩⟩
           alpn_protocols := none
           keylog_intent := 0
           protocol_versions := none
           client_cert_chain := none }⟩ (by decide) (by decide)⟩,
    ⟨by decide,
      issuing_cache_never_exceeds_capacity.2
        [(some (Host.name "a.test"), 0), (some (Host.name "b.test"), 1),
          (some (Host.name "c.test"), 2)] ⟨100, 2, []⟩ ⟨42⟩
        ⟨⟨[]⟩, ⟨[]⟩, 7, 42, none⟩ ⟨0, []⟩ (by decide)⟩⟩

/-- Unfolding the run of a trace one action at a time. -/
theorem FlightSys.run_cons (o : Except String IssuedCert) (s : FlightSys)
    (a : FlightAct) (tr : List FlightAct) :
    FlightSys.run o s (a :: tr) = FlightSys.run o (FlightSys.step o s a) tr :=
  rfl

/-- Splitting the run of a concatenated trace. -/
theorem FlightSys.run_append (o : Except String IssuedCert) (s : FlightSys)
    (tr1 tr2 : List FlightAct) :
    FlightSys.run o s (tr1 ++ tr2) =
      FlightSys.run o (FlightSys.run o s tr1) tr2 :=
  List.foldl_append _ _ _ _

/-- The very first lookup claims the absent entry: the looking caller
becomes the owner of the one in-flight generation. -/
theorem FlightSys.step_lookup_first (o : Except String IssuedCert)
    (n j : Nat) (hj : j < n) :
    FlightSys.step o (FlightSys.init n) (.lookup j) =
      ⟨.pending j, (List.replicate n CallerSt.start).set j .generating, 1⟩ := by
  unfold FlightSys.step FlightSys.init
  simp [List.getElem?_replicate, hj]

/-- A lookup by a not-yet-started caller while the entry is pending joins
the flight as a waiter, changing nothing else. -/
theorem FlightSys.step_lookup_join (o : Except String IssuedCert)
    (s : FlightSys) (w i : Nat) (hw : s.entry = .pending w)
    (hi : s.callers[i]? = some .start) :
    FlightSys.step o s (.lookup i) =
      { s with callers := s.callers.set i .waiting } := by
  simp only [FlightSys.step, hi, hw]

/-- Resolving a pending entry delivers the outcome to the owner and all
waiters without starting any generation. -/
theorem FlightSys.step_resolve_pending (o : Except String IssuedCert)
    (s : FlightSys) (w : Nat) (hw : s.entry = .pending w) :
    FlightSys.step o s .resolve =
      { entry := match o with
          | .ok v => .ready v
          | .error _ => .absent
        callers := s.callers.map (fun c =>
          match c with
          | .generating => .done o
          | .waiting => .done o
          | c' => c')
        genStarts := s.genStarts } := by
  simp only [FlightSys.step, hw]

/-- Running the lookups of a duplicate-free set of not-yet-started callers
from a pending state keeps the entry pending and the generation count
unchanged, and turns exactly those callers into waiters. -/
theorem FlightSys.run_lookups (o : Except String IssuedCert)
    (looks : List Nat) :
    ∀ (s : FlightSys) (w : Nat),
      s.entry = .pending w →
      (∀ i ∈ looks, s.callers[i]? = some CallerSt.start) →
      looks.Nodup →
      (FlightSys.run o s (looks.map .lookup)).entry = .pending w ∧
      (FlightSys.run o s (looks.map .lookup)).genStarts = s.genStarts ∧
      (FlightSys.run o s (looks.map .lookup)).callers.length =
        s.callers.length ∧
      (∀ i ∈ looks, (FlightSys.run o s
        (looks.map .lookup)).callers[i]? = some CallerSt.waiting) ∧
      (∀ i, i ∉ looks → (FlightSys.run o s
        (looks.map .lookup)).callers[i]? = s.callers[i]?) := by
  induction looks with
  | nil =>
    intro s w hw hst hnd
    exact ⟨hw, rfl, rfl, by simp, fun i _ => rfl⟩
  | cons j rest ih =>
    intro s w hw hst hnd
    have hj := hst j (List.mem_cons_self j rest)
    have hjlen : j < s.callers.length := by
      rcases List.getElem?_eq_some_iff.mp hj with ⟨hlt, -⟩
      exact hlt
    obtain ⟨hjnotmem, hndrest⟩ := List.nodup_cons.mp hnd
    have hstep := FlightSys.step_lookup_join o s w j hw hj
    have hst1 : ∀ i ∈ rest,
        ({ s with callers := s.callers.set j CallerSt.waiting } :
          FlightSys).callers[i]? = some CallerSt.start := by
      intro i hi
      have hne : j ≠ i := fun hji => hjnotmem (hji ▸ hi)
      have := hst i (List.mem_cons_of_mem j hi)
      simpa [List.getElem?_set_ne hne] using this
    have hrun : FlightSys.run o s ((j :: rest).map .lookup) =
        FlightSys.run o
          { s with callers := s.callers.set j CallerSt.waiting }
          (rest.map .lookup) := by
      rw [List.map_cons, FlightSys.run_cons, hstep]
    obtain ⟨h1, h2, h3, h4, h5⟩ :=
      ih { s with callers := s.callers.set j CallerSt.waiting } w hw hst1
        hndrest
    rw [hrun]
    refine ⟨h1, h2, ?_, ?_, ?_⟩
    · rw [h3]
      exact List.length_set s.callers j CallerSt.waiting
    · intro i hi
      rcases List.mem_cons.mp hi with rfl | hi'
      · rw [h5 i hjnotmem]
        exact List.getElem?_set_self hjlen
      · exact h4 i hi'
    · intro i hi
      have hji : j ≠ i := fun hh =>
        hi (hh ▸ List.mem_cons_self j rest)
      have hirest : i ∉ rest := fun hh => hi (List.mem_cons_of_mem j hh)
      rw [h5 i hirest]
      exact List.getElem?_set_ne hji

/-- Claim C1: in a single-flight episode for hostname `h` with no live
cache entry, however many concurrent callers there are (`n`, looking up in
any order) and whatever the one in-flight generation returns
(`issue_cert_for_ca` for `h`), at most one generation is started, and once
it resolves every caller has received that same outcome — the same issued
certificate on success or the same error on failure. -/
theorem single_flight_one_generation_shared_outcome
    (h : Host) (ca_cert : X509) (ca_key : PKey) (g : GenState)
    (n : Nat) (looks : List Nat)
    (hperm : looks.Perm (List.range n)) :
    (FlightSys.run (issue_cert_for_ca (some h) ca_cert ca_key g).1
        (FlightSys.init n)
        (looks.map FlightAct.lookup ++ [FlightAct.resolve])).genStarts ≤ 1 ∧
    ∀ c ∈ (FlightSys.run (issue_cert_for_ca (some h) ca_cert ca_key g).1
        (FlightSys.init n)
        (looks.map FlightAct.lookup ++ [FlightAct.resolve])).callers,
      c = .done (issue_cert_for_ca (some h) ca_cert ca_key g).1 := by
  generalize (issue_cert_for_ca (some h) ca_cert ca_key g).1 = o
  cases looks with
  | nil =>
    have h0 : 0 = n := by simpa using hperm.length_eq
    subst h0
    constructor
    · simp [FlightSys.run, FlightSys.step, FlightSys.init]
    · intro c hc
      simp [FlightSys.run, FlightSys.step, FlightSys.init] at hc
  | cons j rest =>
    have hnd : (j :: rest).Nodup := hperm.symm.nodup (List.nodup_range n)
    have hmemn : ∀ i ∈ (j :: rest), i < n := fun i hi =>
      List.mem_range.mp (hperm.mem_iff.mp hi)
    have hj : j < n := hmemn j (List.mem_cons_self j rest)
    obtain ⟨hjnotmem, hndrest⟩ := List.nodup_cons.mp hnd
    have hfirst := FlightSys.step_lookup_first o n j hj
    set s1 : FlightSys :=
      (⟨.pending j, (List.replicate n CallerSt.start).set j .generating,
        1⟩ : FlightSys) with hs1
    have hstart1 : ∀ i ∈ rest, s1.callers[i]? = some CallerSt.start := by
      intro i hi
      have hne : j ≠ i := fun hji => hjnotmem (hji ▸ hi)
      have hin : i < n := hmemn i (List.mem_cons_of_mem j hi)
      simp [hs1, List.getElem?_set_ne hne, List.getElem?_replicate, hin]
    obtain ⟨h1, h2, h3, h4, h5⟩ :=
      FlightSys.run_lookups o rest s1 j rfl hstart1 hndrest
    set s2 : FlightSys := FlightSys.run o s1 (rest.map .lookup) with hs2
    have hres := FlightSys.step_resolve_pending o s2 j h1
    have hrun : FlightSys.run o (FlightSys.init n)
        ((j :: rest).map FlightAct.lookup ++ [FlightAct.resolve]) =
        FlightSys.step o s2 FlightAct.resolve := by
      rw [List.map_cons, List.cons_append, FlightSys.run_cons, hfirst,
        FlightSys.run_append, ← hs2]
      rfl
    rw [hrun, hres]
    have h6 : s2.genStarts = 1 := h2.trans rfl
    constructor
    · simp [h6]
    · intro c hc
      obtain ⟨x, hx, hfx⟩ := List.mem_map.mp hc
      obtain ⟨k, hk⟩ := List.mem_iff_getElem?.mp hx
      have hklen : k < s2.callers.length := by
        rcases List.getElem?_eq_some_iff.mp hk with ⟨hlt, -⟩
        exact hlt
      have hlen : s2.callers.length = n := by
        rw [h3]
        simp [hs1]
      have hkn : k < n := by rwa [hlen] at hklen
      have hkmem : k ∈ (j :: rest) :=
        hperm.mem_iff.mpr (List.mem_range.mpr hkn)
      rcases List.mem_cons.mp hkmem with rfl | hkrest
      · have hval : s2.callers[k]? = some CallerSt.generating := by
          rw [h5 k hjnotmem]
          have hjl : k < (List.replicate n CallerSt.start).length := by
            simpa using hj
          simp [hs1, List.getElem?_set_self hjl]
        rw [hval] at hk
        cases hk
        subst hfx
        rfl
      · have hval : s2.callers[k]? = some CallerSt.waiting := h4 k hkrest
        rw [hval] at hk
        cases hk
        subst hfx
        rfl

/-- Witness for C1 at a concrete input: three concurrent callers looking
up in the order 1, 0, 2. -/
theorem single_flight_one_generation_shared_outcome_witness :
    ([1, 0, 2] : List Nat).Perm (List.range 3) ∧
    ((FlightSys.run (issue_cert_for_ca (some (Host.name "h.test"))
          ⟨⟨[]⟩, ⟨[]⟩, 7, 42, none⟩ ⟨42⟩ ⟨0, []⟩).1 (FlightSys.init 3)
        ([1, 0, 2].map FlightAct.lookup ++ [FlightAct.resolve])).genStarts
        ≤ 1 ∧
      ∀ c ∈ (FlightSys.run (issue_cert_for_ca (some (Host.name "h.test"))
          ⟨⟨[]⟩, ⟨[]⟩, 7, 42, none⟩ ⟨42⟩ ⟨0, []⟩).1 (FlightSys.init 3)
          ([1, 0, 2].map FlightAct.lookup ++ [FlightAct.resolve])).callers,
        c = .done (issue_cert_for_ca (some (Host.name "h.test"))
          ⟨⟨[]⟩, ⟨[]⟩, 7, 42, none⟩ ⟨42⟩ ⟨0, []⟩).1) :=
  ⟨by decide,
    single_flight_one_generation_shared_outcome (Host.name "h.test")
      ⟨⟨[]⟩, ⟨[]⟩, 7, 42, none⟩ ⟨42⟩ ⟨0, []⟩ 3 [1, 0, 2] (by decide)⟩
